import Mathlib

/-!  Shallow embedding of the typhon `Dataset` file-set indexing and
time-interval resolution engine (`typhon/spareice/datasets.py`), together
with proofs about its behaviour.  Timestamps are modelled as proleptic
Gregorian calendar dates with microsecond precision, matching the Python
`datetime` objects used by the source.  -/

namespace Typhon

/-! ## Decimal digit rendering and parsing -/

/-- The decimal digit characters, used when filling path templates and
when writing the persisted cache file. -/
def digChar : Nat → Char
  | 0 => '0' | 1 => '1' | 2 => '2' | 3 => '3' | 4 => '4'
  | 5 => '5' | 6 => '6' | 7 => '7' | 8 => '8' | _ => '9'

/-- Numeric value of a digit character, as used by Python `int()` on a
single digit. -/
def charDigVal (c : Char) : Nat := c.toNat - 48

/-- Zero-padded fixed-width decimal digits, as produced by the format
specifiers `02d` and `03d` in `generate_filename` and by `strftime`. -/
def padDigits : Nat → Nat → List Nat
  | 0, _ => []
  | w + 1, n => padDigits w (n / 10) ++ [n % 10]

/-- Zero-padded fixed-width decimal rendering to characters. -/
def padChars (w n : Nat) : List Char := (padDigits w n).map digChar

/-- Python `str` on a `datetime` year (always between 1 and 9999):
unpadded decimal rendering. -/
def yearStr (y : Nat) : List Char :=
  if y < 10 then padChars 1 y
  else if y < 100 then padChars 2 y
  else if y < 1000 then padChars 3 y
  else padChars 4 y

/-- Python `str(year)[-2:]`: the last two characters of the decimal
rendering of the year. -/
def lastTwo (cs : List Char) : List Char := cs.drop (cs.length - 2)

/-- Python `int()` applied to a string of characters: succeeds exactly on
nonempty all-digit strings (signs and whitespace never occur in the
matched groups fed to it by `Dataset`). -/
def parseNat (cs : List Char) : Option Nat :=
  if cs ≠ [] ∧ cs.all Char.isDigit then
    some (cs.foldl (fun a c => 10 * a + charDigVal c) 0)
  else none

/-! ## Proleptic Gregorian calendar arithmetic

Python `datetime` arithmetic (`+ timedelta`, comparison, subtraction) is
absolute-time arithmetic over the proleptic Gregorian calendar.  We embed
it through a day-numbering of civil dates (days counted from 0000-03-01,
the standard era-based algorithm); all quantities stay in `Nat` because
`datetime` years are restricted to 1..9999. -/

/-- Gregorian leap-year rule, as used by `datetime`. -/
def isLeap (y : Nat) : Bool := y % 4 == 0 && (y % 100 != 0 || y % 400 == 0)

/-- Number of days in a month, as enforced by the `datetime` constructor. -/
def daysInMonth (y m : Nat) : Nat :=
  if m = 2 then (if isLeap y then 29 else 28)
  else if m = 4 ∨ m = 6 ∨ m = 9 ∨ m = 11 then 30 else 31

/-- Day number of a civil date, counted from 0000-03-01. -/
def daysFromCivil (y m d : Nat) : Nat :=
  let y2 := if m ≤ 2 then y - 1 else y
  let era := y2 / 400
  let yoe := y2 % 400
  let mp := if m ≤ 2 then m + 9 else m - 3
  let doy := (153 * mp + 2) / 5 + d - 1
  let doe := yoe * 365 + yoe / 4 - yoe / 100 + doy
  era * 146097 + doe

/-- Civil date (year, month, day) of a day number. -/
def civilFromDays (z : Nat) : Nat × Nat × Nat :=
  let era := z / 146097
  let doe := z % 146097
  let yoe := (doe - doe / 1460 + doe / 36524 - doe / 146096) / 365
  let y := yoe + era * 400
  let doy := doe - (365 * yoe + yoe / 4 - yoe / 100)
  let mp := (5 * doy + 2) / 153
  let d := doy - (153 * mp + 2) / 5 + 1
  let m := if mp < 10 then mp + 3 else mp - 9
  (if m ≤ 2 then y + 1 else y, m, d)

/-! ## The datetime model -/

/-- A Python `datetime` value (timezone-naive, as used throughout
`datasets.py`). -/
structure DateTime where
  year : Nat
  month : Nat
  day : Nat
  hour : Nat
  minute : Nat
  second : Nat
  microsecond : Nat
deriving DecidableEq, Repr

/-- The validity constraints enforced by the `datetime` constructor. -/
def ValidDT (t : DateTime) : Prop :=
  1 ≤ t.year ∧ t.year ≤ 9999 ∧ 1 ≤ t.month ∧ t.month ≤ 12 ∧
  1 ≤ t.day ∧ t.day ≤ daysInMonth t.year t.month ∧
  t.hour ≤ 23 ∧ t.minute ≤ 59 ∧ t.second ≤ 59 ∧ t.microsecond ≤ 999999

instance (t : DateTime) : Decidable (ValidDT t) := by
  unfold ValidDT; infer_instance

/-- Absolute time of a datetime, in microseconds from 0000-03-01T00:00:00. -/
def toMicro (t : DateTime) : Nat :=
  daysFromCivil t.year t.month t.day * 86400000000 +
    t.hour * 3600000000 + t.minute * 60000000 +
    t.second * 1000000 + t.microsecond

/-- Datetime of an absolute microsecond count.  Meaningful for counts up
to `maxMicro` (the count of `datetime.max`): the Python `datetime` type
cannot represent later instants, so every caller that models Python
arithmetic guards the count with `maxMicro` first (see `addMicroE`). -/
def fromMicro (n : Nat) : DateTime :=
  let c := civilFromDays (n / 86400000000)
  let rem := n % 86400000000
  ⟨c.1, c.2.1, c.2.2, rem / 3600000000, rem % 3600000000 / 60000000,
    rem % 60000000 / 1000000, rem % 1000000⟩

/-- The calendar arithmetic of `datetime + timedelta` with a nonnegative
delta given in microseconds, meaningful when the shifted instant stays
within the `datetime` range.  Python raises `OverflowError` past
`datetime.max`; the raising form is `addMicroE` below, which guards with
`maxMicro` before falling back to this arithmetic. -/
def addMicro (t : DateTime) (delta : Nat) : DateTime := fromMicro (toMicro t + delta)

/-- The absolute microsecond count of `datetime.max`,
9999-12-31T23:59:59.999999: the largest instant the Python `datetime`
type represents. -/
def maxMicro : Nat := toMicro ⟨9999, 12, 31, 23, 59, 59, 999999⟩

/-- Python datetime comparison.  Python compares datetimes field by field
lexicographically, which for valid datetimes coincides with comparing
their absolute microsecond counts. -/
def dtLt (a b : DateTime) : Bool := decide (toMicro a < toMicro b)

/-- Nonstrict datetime comparison (used as the sort key ordering). -/
def dtLe (a b : DateTime) : Bool := decide (toMicro a ≤ toMicro b)

/-! ## The date-argument dictionary -/

/-- The `date_args` dictionary built by `_create_date_from_placeholders`:
an association list with Python dict update semantics (item assignment
replaces the value of an existing key in place, otherwise appends). -/
abbrev Args := List (String × Nat)

/-- Python `args[k] = v`. -/
def setArg : Args → String → Nat → Args
  | [], k, v => [(k, v)]
  | (k0, v0) :: rest, k, v =>
    if k0 = k then (k, v) :: rest else (k0, v0) :: setArg rest k v

/-- Python `args.get(k)`. -/
def lookupArg : Args → String → Option Nat
  | [], _ => none
  | (k0, v0) :: rest, k => if k0 = k then some v0 else lookupArg rest k

/-- Python `k in args`. -/
def hasKey (a : Args) (k : String) : Bool := (lookupArg a k).isSome

/-- Python `del args[k]` (callers only delete keys known to be present). -/
def eraseArg : Args → String → Args
  | [], _ => []
  | (k0, v0) :: rest, k => if k0 = k then rest else (k0, v0) :: eraseArg rest k

/-- The observable failure modes of time-coverage resolution and file
search.  `noMatch` is the ValueError raised when the path does not match
the template regex; `indexError` the IndexError from indexing past the
end of the matched value list; `keyError` the KeyError from a missing
dict key in the day-of-year conversion; `badDate` a TypeError or
ValueError raised by the `datetime` constructor (unknown keyword
argument, missing required field or out-of-range value) or by `int()`;
`noResolution` the TypeError from adding `None` to a datetime when
`_get_time_resolution` finds no time unit; `overflow` the OverflowError
raised by `datetime + timedelta` when the result would exceed
`datetime.max`; `noPlaceholders` the ValueError raised for single-file
datasets; `noFiles` the `NoFilesError` of `find_files`. -/
inductive RErr where
  | noMatch
  | indexError
  | keyError
  | badDate
  | noResolution
  | overflow
  | noPlaceholders
  | noFiles
deriving DecidableEq, Repr

/-- Python `s.startswith(p)` for the ASCII placeholder names. -/
def strStarts (s p : String) : Bool :=
  decide (p.toList = s.toList.take p.toList.length)

/-- Python string slicing `s[n:]` for the ASCII placeholder names. -/
def strDrop (s : String) (n : Nat) : String := String.mk (s.toList.drop n)

/-- Length of an ASCII placeholder name. -/
def strLen (s : String) : Nat := s.toList.length

/-- One pass of the loop in `_create_date_from_placeholders`: walks the
placeholder names with their index, converts the matched value at the
same index with `int()`, and enters it into the dict following the
branch structure of the source (`year2` threshold, `millisecond` to
microseconds under the prefixed key, otherwise prefix-filtered entry
under the stripped name). -/
def createDateLoop (pfx : String) (excl : Option String)
    (values : List (List Char)) : List String → Nat → Args → Except RErr Args
  | [], _, args => .ok args
  | p :: ps, i, args =>
    match values.get? i with
    | none => .error .indexError
    | some vstr =>
      match parseNat vstr with
      | none => .error .badDate
      | some v =>
        let args :=
          if p = pfx ++ "year2" then
            setArg args "year" (if v < 65 then 2000 + v else 1900 + v)
          else if p = pfx ++ "millisecond" then
            setArg args (pfx ++ "microsecond") (v * 1000)
          else if (match excl with
                   | none => true
                   | some e => !(strStarts p e)) && strStarts p pfx then
            setArg args (strDrop p (strLen pfx)) v
          else args
        createDateLoop pfx excl values ps (i + 1) args

/-- `_create_date_from_placeholders`: builds the date-argument dict from
the placeholder names and matched values, then converts a day-of-year
entry into month and day via `datetime(year, 1, 1) + timedelta(doy - 1)`
(which validates the year) and deletes the `doy` key. -/
def createDate (phs : List String) (values : List (List Char))
    (pfx : String) (excl : Option String) (dflt : Option Args) :
    Except RErr Args :=
  match createDateLoop pfx excl values phs 0 (dflt.getD []) with
  | .error e => .error e
  | .ok args =>
    if (pfx ++ "doy") ∈ phs then
      match lookupArg args "year", lookupArg args "doy" with
      | some y, some doy =>
        if 1 ≤ y ∧ y ≤ 9999 then
          let c := civilFromDays (daysFromCivil y 1 1 + doy - 1)
          .ok (eraseArg (setArg (setArg args "month" c.2.1) "day" c.2.2) "doy")
        else .error .badDate
      | _, _ => .error .keyError
    else .ok args

/-- The keyword arguments accepted by the `datetime` constructor. -/
def datetimeKeys : List String :=
  ["year", "month", "day", "hour", "minute", "second", "microsecond"]

/-- Python `datetime(**args)`: rejects unknown keyword arguments,
requires year, month and day, defaults the time fields to zero, and
validates all ranges. -/
def datetimeFromArgs (args : Args) : Except RErr DateTime :=
  if args.all (fun kv => datetimeKeys.contains kv.1) then
    match lookupArg args "year", lookupArg args "month", lookupArg args "day" with
    | some y, some mo, some d =>
      let t : DateTime :=
        ⟨y, mo, d, (lookupArg args "hour").getD 0, (lookupArg args "minute").getD 0,
          (lookupArg args "second").getD 0, (lookupArg args "microsecond").getD 0⟩
      if ValidDT t then .ok t else .error .badDate
    | _, _, _ => .error .badDate
  else .error .badDate

/-- `_get_time_resolution`: the finest time unit among the keys of the
date-argument dict, as a `timedelta` in microseconds.  The source checks
for the key `"millisecond"`, which the dict built by
`_create_date_from_placeholders` never contains (millisecond values are
stored under `"microsecond"`). -/
def getTimeResolution (args : Args) : Option Nat :=
  if hasKey args "millisecond" then some 1000
  else if hasKey args "second" then some 1000000
  else if hasKey args "minute" then some 60000000
  else if hasKey args "hour" then some 3600000000
  else if hasKey args "day" then some 86400000000
  else none

/-! ## Path templates: filling and matching -/

/-- One token of a path template: literal text or a placeholder written
in braces.  The source also supports `*` wildcards; the claims under
study concern templates without wildcards, so they are not modelled. -/
inductive Tok where
  | lit (s : String)
  | ph (p : String)
deriving DecidableEq, Repr

abbrev Template := List Tok

/-- The placeholder names of a template in order of appearance, as
computed by `re.findall` on the `files` path (the `name` placeholder is
included). -/
def templatePlaceholders (tmpl : Template) : List String :=
  tmpl.filterMap fun t => match t with | .lit _ => none | .ph p => some p

/-- Width of the fixed-width capturing digit group that
`Dataset.placeholder` associates with a placeholder; `none` for the
`name` placeholder (matched as a literal, contributing no group) and for
unknown names. -/
def phWidth (p : String) : Option Nat :=
  if p = "year" ∨ p = "end_year" then some 4
  else if p = "year2" ∨ p = "month" ∨ p = "day" ∨ p = "hour" ∨ p = "minute"
      ∨ p = "second" ∨ p = "end_year2" ∨ p = "end_month" ∨ p = "end_day"
      ∨ p = "end_hour" ∨ p = "end_minute" ∨ p = "end_second" then some 2
  else if p = "doy" ∨ p = "millisecond" ∨ p = "end_doy" ∨ p = "end_millisecond" then
    some 3
  else none

/-- Day of the year, as computed in `generate_filename` by subtracting
`datetime(year, 1, 1)` and taking the day component of the difference. -/
def dayOfYear (y m d : Nat) : Nat := daysFromCivil y m d - daysFromCivil y 1 1 + 1

/-- The replacement text `generate_filename` substitutes for one
placeholder; `selfName` is the `name` attribute of the dataset instance.
Unknown placeholders raise a KeyError in `str.format`, modelled as
`none`. -/
def phFill (selfName : String) (s e : DateTime) (p : String) : Option (List Char) :=
  if p = "year" then some (yearStr s.year)
  else if p = "year2" then some (lastTwo (yearStr s.year))
  else if p = "month" then some (padChars 2 s.month)
  else if p = "day" then some (padChars 2 s.day)
  else if p = "doy" then some (padChars 3 (dayOfYear s.year s.month s.day))
  else if p = "hour" then some (padChars 2 s.hour)
  else if p = "minute" then some (padChars 2 s.minute)
  else if p = "second" then some (padChars 2 s.second)
  else if p = "millisecond" then some (padChars 3 (s.microsecond / 1000))
  else if p = "end_year" then some (yearStr e.year)
  else if p = "end_year2" then some (lastTwo (yearStr e.year))
  else if p = "end_month" then some (padChars 2 e.month)
  else if p = "end_day" then some (padChars 2 e.day)
  else if p = "end_doy" then some (padChars 3 (dayOfYear e.year e.month e.day))
  else if p = "end_hour" then some (padChars 2 e.hour)
  else if p = "end_minute" then some (padChars 2 e.minute)
  else if p = "end_second" then some (padChars 2 e.second)
  else if p = "end_millisecond" then some (padChars 3 (e.microsecond / 1000))
  else if p = "name" then some selfName.toList
  else none

/-- Fills one template token. -/
def tokFill (selfName : String) (s e : DateTime) : Tok → Option (List Char)
  | .lit str => some str.toList
  | .ph p => phFill selfName s e p

/-- `Dataset.generate_filename`: substitutes every placeholder of the
template with the value derived from the start time (`end_`-prefixed
placeholders use the end time; the caller passes the start time again
when no end time is given), concatenating the filled tokens; a template
with an unknown placeholder raises a KeyError, modelled as `none`. -/
def generateFilename (selfName : String) (s e : DateTime) : Template → Option (List Char)
  | [] => some []
  | t :: ts =>
    match tokFill selfName s e t, generateFilename selfName s e ts with
    | some c, some rest => some (c ++ rest)
    | _, _ => none

/-- Removes an expected literal from the front of the input. -/
def stripLead : List Char → List Char → Option (List Char)
  | [], cs => some cs
  | _ :: _, [] => none
  | l :: ls, c :: cs => if c = l then stripLead ls cs else none

/-- Consumes exactly `w` digit characters: the match of a `(\d{w})`
capture group. -/
def takeDigits (w : Nat) (cs : List Char) : Option (List Char × List Char) :=
  if (cs.take w).length = w ∧ (cs.take w).all Char.isDigit then
    some (cs.take w, cs.drop w)
  else none

/-- Anchored match of the compiled template regex at the current
position: literal tokens (and the current value of the `name` entry of
the placeholder table) must appear verbatim, and each other placeholder
matches its fixed-width digit group, collected in template order.
`none` throughout for templates containing unknown placeholders (the
KeyError raised when the pattern is built). -/
def matchAt (tableName : String) : Template → List Char → Option (List (List Char))
  | [], _ => some []
  | .lit s :: ts, cs =>
    match stripLead s.toList cs with
    | none => none
    | some rest => matchAt tableName ts rest
  | .ph p :: ts, cs =>
    if p = "name" then
      match stripLead tableName.toList cs with
      | none => none
      | some rest => matchAt tableName ts rest
    else
      match phWidth p with
      | none => none
      | some w =>
        match takeDigits w cs with
        | none => none
        | some (g, rest) => (matchAt tableName ts rest).map (g :: ·)

/-- `regex.findall(filename)[0]`: the groups of the leftmost match of the
unanchored compiled pattern, found by trying every start position from
the left.  (The source compiles literal template text into the pattern
unescaped, so metacharacters such as `.` could in principle match other
characters; the distinction does not arise for the filenames considered
here.) -/
def matchSearch (tableName : String) (tmpl : Template) :
    List Char → Option (List (List Char))
  | [] => matchAt tableName tmpl []
  | c :: cs =>
    match matchAt tableName tmpl (c :: cs) with
    | some g => some g
    | none => matchSearch tableName tmpl cs

/-- The characters that the source treats specially when it turns the
path template into a pattern: the literal template text is compiled
unescaped into the regex (so the `re` metacharacters change its meaning
or raise `re.error`), `*` is additionally rewritten to a non-greedy
wildcard, and braces are consumed by `str.format`. -/
def regexSpecials : List Char :=
  ['.', '^', '$', '*', '+', '?', '\x7b', '\x7d', '[', ']', '\\', '|', '(', ')']

/-- A token whose literal text survives the unescaped compilation
verbatim. -/
def plainTok : Tok → Bool
  | .lit s => s.toList.all (fun c => !regexSpecials.contains c)
  | .ph _ => true

/-- A template whose literal text contains none of the characters the
source compiles specially: on such templates the compiled pattern
matches the literal text verbatim, as `matchAt` does. -/
def plainTemplate (tmpl : Template) : Bool := tmpl.all plainTok

/-! ## Time-coverage resolution -/

/-- Python `datetime + timedelta` with a nonnegative delta in
microseconds: raises `OverflowError` (modelled as `.error .overflow`)
when the result would pass `datetime.max`, and otherwise returns the
shifted datetime. -/
def addMicroE (t : DateTime) (delta : Nat) : Except RErr DateTime :=
  if toMicro t + delta ≤ maxMicro then .ok (addMicro t delta) else .error .overflow

/-- `Dataset.retrieve_time_coverage` in `"filename"` mode.  The cache is
not modelled: the function is pure, so a cached entry equals the
recomputed one.  When the compiled pattern has exactly one capture
group, `re.findall` returns plain strings and the value indexing in
`_create_date_from_placeholders` walks the characters of the first
match; with two or more groups it returns tuples of group strings. -/
def retrieveTimeCoverage (tableName : String) (continuous : Bool)
    (tmpl : Template) (file : List Char) : Except RErr (DateTime × DateTime) :=
  if templatePlaceholders tmpl = [] then .error .noPlaceholders
  else
    match matchSearch tableName tmpl file with
    | none => .error .noMatch
    | some g =>
      let values := if g.length = 1 then (g.headD []).map (fun c => [c]) else g
      let phs := templatePlaceholders tmpl
      match createDate phs values "" (some "end_") none with
      | .error e => .error e
      | .ok startArgs =>
        match createDate phs values "end_" none (some startArgs) with
        | .error e => .error e
        | .ok endArgs =>
          match datetimeFromArgs startArgs, datetimeFromArgs endArgs with
          | .error e, _ => .error e
          | .ok _, .error e => .error e
          | .ok sd, .ok ed =>
            match (if continuous ∧ sd = ed then
                     match getTimeResolution startArgs with
                     | none => Except.error RErr.noResolution
                     | some r => addMicroE sd r
                   else Except.ok ed) with
            | .error e => .error e
            | .ok ed2 =>
              if dtLt ed2 sd then
                match addMicroE ed2 86400000000 with
                | .error e => .error e
                | .ok ed3 => .ok (sd, ed3)
              else .ok (sd, ed2)

/-! ## File search -/

/-- Modelled from the spec: `typhon.trees.IntervalTree.overlaps` is
imported from `typhon.trees`, which is not among the sources.  Per the
spec, two half-open intervals overlap iff each starts strictly before
the other ends; touching endpoints do not count as overlap. -/
def overlaps (a b : DateTime × DateTime) : Bool :=
  dtLt a.1 b.2 && dtLt b.1 a.2

/-- `Dataset._check_file`: resolves the coverage of a candidate file and
tests overlap with the query interval. -/
def checkFile (tableName : String) (continuous : Bool) (tmpl : Template)
    (s e : DateTime) (file : List Char) : Except RErr Bool :=
  match retrieveTimeCoverage tableName continuous tmpl file with
  | .error err => .error err
  | .ok cov => .ok (overlaps cov (s, e))

/-- The `found_files` generator of `find_files`: keeps every candidate
that passes `_check_file`, paired with its resolved time coverage. -/
def gatherFound (tableName : String) (continuous : Bool) (tmpl : Template)
    (s e : DateTime) :
    List (List Char) → Except RErr (List (List Char × (DateTime × DateTime)))
  | [] => .ok []
  | f :: fs =>
    match checkFile tableName continuous tmpl s e f with
    | .error err => .error err
    | .ok keep =>
      match gatherFound tableName continuous tmpl s e fs with
      | .error err => .error err
      | .ok rest =>
        if keep then
          match retrieveTimeCoverage tableName continuous tmpl f with
          | .error err => .error err
          | .ok cov => .ok ((f, cov) :: rest)
        else .ok rest

/-- Stable insertion into a list sorted by `le`. -/
def insertLe {α : Type} (le : α → α → Bool) (x : α) : List α → List α
  | [] => [x]
  | y :: ys => if le x y then x :: y :: ys else y :: insertLe le x ys

/-- Stable sort by `le`.  Python `sorted` is a stable sort, and every
stable sort by the same key produces the same output list. -/
def sortLe {α : Type} (le : α → α → Bool) : List α → List α
  | [] => []
  | x :: xs => insertLe le x (sortLe le xs)

/-- The sort key of `find_files`: `lambda x: x[1][0]`, the interval
start. -/
def pairLe (a b : List Char × (DateTime × DateTime)) : Bool := dtLe a.2.1 b.2.1

/-- `Dataset.find_files` for a multi-file dataset in `"filename"` mode.
The filesystem walk `_get_all_files` is abstracted by `candidates`, the
paths it enumerates in filesystem order; as in the source, candidates
are filtered with an anchored `regex.match` before their coverage is
resolved, the survivors are optionally sorted by start time, and the
`NoFilesError` is raised only when `no_files_error` is set and nothing
was found. -/
def findFiles (tableName : String) (continuous : Bool) (tmpl : Template)
    (candidates : List (List Char)) (s e : DateTime)
    (sortFlag noFilesError : Bool) :
    Except RErr (List (List Char × (DateTime × DateTime))) :=
  match gatherFound tableName continuous tmpl s e
      (candidates.filter fun f => (matchAt tableName tmpl f).isSome) with
  | .error err => .error err
  | .ok found =>
    let found := if sortFlag then sortLe pairLe found else found
    if noFilesError ∧ found = [] then .error .noFiles else .ok found

/-! ## The persisted time-coverage cache -/

/-- `strftime` with the format `%Y-%m-%dT%H:%M:%S.%f`, as used by
`save_time_coverages` (`%Y` four digits wide, the rendering of every
year from 1000 to 9999; `%f` always six digits). -/
def dtFormat (t : DateTime) : List Char :=
  padChars 4 t.year ++ '-' :: (padChars 2 t.month ++ '-' :: (padChars 2 t.day ++
  'T' :: (padChars 2 t.hour ++ ':' :: (padChars 2 t.minute ++ ':' :: (padChars 2 t.second ++
  '.' :: padChars 6 t.microsecond)))))

/-- Expects one literal separator character. -/
def expectChar (c : Char) : List Char → Option (List Char)
  | [] => none
  | x :: xs => if x = c then some xs else none

/-- Reads one fixed-width numeric field followed by a literal separator
character. -/
def parseField (w : Nat) (sep : Char) (cs : List Char) : Option (Nat × List Char) :=
  match takeDigits w cs with
  | none => none
  | some (g, r) =>
    match expectChar sep r with
    | none => none
    | some r2 =>
      match parseNat g with
      | none => none
      | some v => some (v, r2)

/-- `strptime` with the format `%Y-%m-%dT%H:%M:%S.%f` on a string
produced by `dtFormat`: fixed-width digit fields between the literal
separators, validated like the `datetime` constructor, consuming the
whole string. -/
def dtParse (cs : List Char) : Option DateTime :=
  match parseField 4 '-' cs with
  | none => none
  | some (y, r1) =>
    match parseField 2 '-' r1 with
    | none => none
    | some (mo, r2) =>
      match parseField 2 'T' r2 with
      | none => none
      | some (d, r3) =>
        match parseField 2 ':' r3 with
        | none => none
        | some (h, r4) =>
          match parseField 2 ':' r4 with
          | none => none
          | some (mi, r5) =>
            match parseField 2 '.' r5 with
            | none => none
            | some (sec, r6) =>
              match takeDigits 6 r6 with
              | none => none
              | some (uss, r7) =>
                if r7 = [] then
                  match parseNat uss with
                  | none => none
                  | some us =>
                    let t : DateTime := ⟨y, mo, d, h, mi, sec, us⟩
                    if ValidDT t then some t else none
                else none

/-- `save_time_coverages`: the JSON object written to the cache file,
modelled as the association list of its entries (file path, start
string, end string); every datetime is rendered with `strftime`. -/
def saveCache (cache : List (List Char × DateTime × DateTime)) :
    List (List Char × List Char × List Char) :=
  cache.map fun e => (e.1, dtFormat e.2.1, dtFormat e.2.2)

/-- `load_time_coverages`: parses both timestamp strings of every entry
back with `strptime` (a parse failure raises, as `strptime` does). -/
def loadCache : List (List Char × List Char × List Char) →
    Option (List (List Char × DateTime × DateTime))
  | [] => some []
  | e :: rest =>
    match dtParse e.2.1, dtParse e.2.2, loadCache rest with
    | some s, some en, some r => some ((e.1, s, en) :: r)
    | _, _, _ => none

/-! ## The shared placeholder table -/

/-- The class attribute `Dataset.placeholder` maps placeholder names to
pattern fragments; the only entry ever written is `"name"`: the setter
of the `name` property assigns into the class-level dict, so the entry
is shared by every `Dataset` instance.  The mutable state is modelled as
the current value of that entry. -/
def setPlaceholderName (_table : String) (newName : String) : String := newName

/-- Constructing a `Dataset` always runs the `name` setter, overwriting
the shared `"name"` entry with the name of the newly built dataset. -/
def constructDataset (table : String) (newName : String) : String :=
  setPlaceholderName table newName

/-! ## Concrete templates and template families used in the analysis -/

/-- A day-granularity template, `/dir/{year}/{month}/{day}.ext`
style. -/
def dayTemplate : Template :=
  [Tok.ph "year", Tok.lit "/", Tok.ph "month", Tok.lit "/", Tok.ph "day", Tok.lit ".ext"]

/-- A day-granularity template whose literal text avoids every character
the source compiles specially. -/
def plainDayTemplate : Template :=
  [Tok.ph "year", Tok.lit "/", Tok.ph "month", Tok.lit "/", Tok.ph "day", Tok.lit "_nc"]

/-- A template whose placeholders include both second and millisecond. -/
def secMsTemplate : Template :=
  [Tok.ph "year", Tok.lit "-", Tok.ph "month", Tok.lit "-", Tok.ph "day", Tok.lit "T",
   Tok.ph "hour", Tok.lit ":", Tok.ph "minute", Tok.lit ":", Tok.ph "second",
   Tok.lit ".", Tok.ph "millisecond"]

/-- A template with an `end_day` placeholder. -/
def endDayTemplate : Template :=
  [Tok.ph "year", Tok.lit "-", Tok.ph "month", Tok.lit "-", Tok.ph "day",
   Tok.lit "x", Tok.ph "end_day"]

/-- A template with hour and `end_hour` placeholders. -/
def hourSpanTemplate : Template :=
  [Tok.ph "year", Tok.lit "-", Tok.ph "month", Tok.lit "-", Tok.ph "day",
   Tok.lit "T", Tok.ph "hour", Tok.lit "_", Tok.ph "end_hour"]

/-- A template with a two-digit year. -/
def year2Template : Template :=
  [Tok.ph "year2", Tok.lit "/", Tok.ph "month", Tok.lit "/", Tok.ph "day"]

/-- A template with an `end_millisecond` placeholder. -/
def endMsTemplate : Template :=
  [Tok.ph "year", Tok.lit "-", Tok.ph "month", Tok.lit "-", Tok.ph "day", Tok.lit "T",
   Tok.ph "hour", Tok.lit ":", Tok.ph "minute", Tok.lit ":", Tok.ph "second",
   Tok.lit ".", Tok.ph "millisecond", Tok.lit "x", Tok.ph "end_millisecond"]

/-- A template with year and month only. -/
def yearMonthTemplate : Template := [Tok.ph "year", Tok.lit "/", Tok.ph "month"]

/-- A template beginning with the `name` placeholder. -/
def nameTemplate : Template :=
  [Tok.ph "name", Tok.lit "_", Tok.ph "year", Tok.ph "month", Tok.ph "day", Tok.lit ".nc"]

/-- The placeholder names accepted by `Dataset.placeholder`. -/
def knownPlaceholders : List String :=
  ["year", "year2", "month", "day", "doy", "hour", "minute", "second", "millisecond",
   "end_year", "end_year2", "end_month", "end_day", "end_doy", "end_hour",
   "end_minute", "end_second", "end_millisecond", "name"]

/-- The calendar-ordered placeholder chains, from day granularity down
to millisecond granularity. -/
def chainPhs : Nat → List String
  | 0 => ["year", "month", "day"]
  | 1 => ["year", "month", "day", "hour"]
  | 2 => ["year", "month", "day", "hour", "minute"]
  | 3 => ["year", "month", "day", "hour", "minute", "second"]
  | _ => ["year", "month", "day", "hour", "minute", "second", "millisecond"]

/-- The extension actually applied by the resolver for each chain level
(one second for the millisecond level, since the resolution lookup never
sees a `"millisecond"` key). -/
def chainUnit : Nat → Nat
  | 0 => 86400000000
  | 1 => 3600000000
  | 2 => 60000000
  | _ => 1000000

/-- A timestamp truncated to the granularity of a placeholder chain
(the start date built from the matched placeholder values). -/
def truncAt : Nat → DateTime → DateTime
  | 0, t => ⟨t.year, t.month, t.day, 0, 0, 0, 0⟩
  | 1, t => ⟨t.year, t.month, t.day, t.hour, 0, 0, 0⟩
  | 2, t => ⟨t.year, t.month, t.day, t.hour, t.minute, 0, 0⟩
  | 3, t => ⟨t.year, t.month, t.day, t.hour, t.minute, t.second, 0⟩
  | _, t => ⟨t.year, t.month, t.day, t.hour, t.minute, t.second, t.microsecond / 1000 * 1000⟩

/-! # Theorems -/

/-! ## Calendar arithmetic -/

/-- Within one century of the era: inverting the day count to the year
and the day-of-year. -/
theorem within_century (c r : Nat) (hc : c ≤ 3) (hr : r ≤ 36524) :
    365 * ((r - (24 * c + r) / 1460) / 365) + ((r - (24 * c + r) / 1460) / 365) / 4 ≤ r ∧
    r - (365 * ((r - (24 * c + r) / 1460) / 365) + ((r - (24 * c + r) / 1460) / 365) / 4) ≤ 365 ∧
    (r - (24 * c + r) / 1460) / 365 ≤ 99 := by
  omega

/-- The year-of-era formula of `civilFromDays` inverts the day count:
the days-before-year function evaluated at the computed year-of-era
bounds the day-of-era from below within one year. -/
theorem yoe_aux (doe g e f a : Nat) (h : doe ≤ 146096)
    (hg : g = doe / 1460) (he : e = doe / 36524) (hf : f = doe / 146096)
    (ha : a = (doe - g + e - f) / 365) :
    365 * a + a / 4 - a / 100 ≤ doe ∧
      doe - (365 * a + a / 4 - a / 100) ≤ 365 ∧ a ≤ 399 := by
  obtain ⟨c, hc⟩ : ∃ c, c = e - f := ⟨_, rfl⟩
  obtain ⟨r, hr⟩ : ∃ r, r = doe - 36524 * c := ⟨_, rfl⟩
  have hc3 : c ≤ 3 := by omega
  have hr3 : r ≤ 36524 := by omega
  obtain ⟨t, ht⟩ : ∃ t, t = (24 * c + r) / 1460 := ⟨_, rfl⟩
  obtain ⟨s, hs⟩ : ∃ s, s = (r - t) / 365 := ⟨_, rfl⟩
  have key : 365 * s + s / 4 ≤ r ∧ r - (365 * s + s / 4) ≤ 365 ∧ s ≤ 99 := by
    rw [hs, ht]; exact within_century c r hc3 hr3
  have hdoe : doe = 36524 * c + r := by omega
  have hgt : g = 25 * c + t := by omega
  have haa : a = 100 * c + s := by omega
  have hd4 : a / 4 = 25 * c + s / 4 := by omega
  have hd100 : a / 100 = c := by omega
  omega

/-- The year-of-era inversion, stated on the subterms as they occur in
`civilFromDays`. -/
theorem yoe_inv (doe : Nat) (h : doe ≤ 146096) :
    365 * ((doe - doe / 1460 + doe / 36524 - doe / 146096) / 365) +
      ((doe - doe / 1460 + doe / 36524 - doe / 146096) / 365) / 4 -
      ((doe - doe / 1460 + doe / 36524 - doe / 146096) / 365) / 100 ≤ doe ∧
    doe - (365 * ((doe - doe / 1460 + doe / 36524 - doe / 146096) / 365) +
      ((doe - doe / 1460 + doe / 36524 - doe / 146096) / 365) / 4 -
      ((doe - doe / 1460 + doe / 36524 - doe / 146096) / 365) / 100) ≤ 365 ∧
    (doe - doe / 1460 + doe / 36524 - doe / 146096) / 365 ≤ 399 :=
  yoe_aux doe _ _ _ _ h rfl rfl rfl rfl

/-- `daysFromCivil` inverts `civilFromDays`, stated over the components
of the latter. -/
theorem civil_inv_aux (z era doe yoe doy mp d m : Nat)
    (hera : era = z / 146097) (hdoe : doe = z % 146097)
    (hyoe : yoe = (doe - doe / 1460 + doe / 36524 - doe / 146096) / 365)
    (hdoy : doy = doe - (365 * yoe + yoe / 4 - yoe / 100))
    (hmp : mp = (5 * doy + 2) / 153)
    (hd : d = doy - (153 * mp + 2) / 5 + 1)
    (hm : m = if mp < 10 then mp + 3 else mp - 9) :
    daysFromCivil (if m ≤ 2 then yoe + era * 400 + 1 else yoe + era * 400) m d = z := by
  have key := yoe_inv doe (by omega)
  rw [← hyoe] at key
  have h1 : 365 * yoe + yoe / 4 - yoe / 100 ≤ doe := key.1
  have h2 : doy ≤ 365 := by omega
  have h3 : yoe ≤ 399 := key.2.2
  have h4 : (153 * mp + 2) / 5 ≤ doy := by omega
  have h5 : mp ≤ 11 := by omega
  clear key
  have h6 : doe ≤ 146096 := by omega
  have h7 : z = era * 146097 + doe := by omega
  have h8 : (153 * mp + 2) / 5 + d - 1 = doy := by omega
  have h9 : 365 * yoe + yoe / 4 - yoe / 100 + doy = doe := by omega
  clear hdoy hd hdoe hera
  rcases Nat.lt_or_ge mp 10 with h10 | h10
  · have hm2 : m = mp + 3 := by rw [hm, if_pos h10]
    have hm3 : ¬ m ≤ 2 := by omega
    rw [if_neg hm3]
    simp only [daysFromCivil, if_neg hm3]
    have e1 : (yoe + era * 400) / 400 = era := by omega
    have e2 : (yoe + era * 400) % 400 = yoe := by omega
    rw [e1, e2]
    have e3 : m - 3 = mp := by omega
    rw [e3]
    omega
  · have hm2 : m = mp - 9 := by rw [hm, if_neg (by omega : ¬ mp < 10)]
    have hm3 : m ≤ 2 := by omega
    rw [if_pos hm3]
    simp only [daysFromCivil, if_pos hm3]
    have e1 : (yoe + era * 400 + 1 - 1) / 400 = era := by omega
    have e2 : (yoe + era * 400 + 1 - 1) % 400 = yoe := by omega
    rw [e1, e2]
    have e3 : m + 9 = mp := by omega
    rw [e3]
    omega

/-- The civil-date round trip: every day number is recovered from its
civil date. -/
theorem days_civil (z : Nat) :
    daysFromCivil (civilFromDays z).1 (civilFromDays z).2.1 (civilFromDays z).2.2 = z := by
  have h := civil_inv_aux z (z / 146097) (z % 146097) _ _ _ _ _ rfl rfl rfl rfl rfl rfl rfl
  simpa only [civilFromDays] using h

/-- The absolute-microsecond round trip. -/
theorem toMicro_fromMicro (n : Nat) : toMicro (fromMicro n) = n := by
  have h := days_civil (n / 86400000000)
  simp only [toMicro, fromMicro]
  omega

/-- Adding a timedelta shifts the absolute microsecond count exactly. -/
theorem toMicro_addMicro (t : DateTime) (d : Nat) :
    toMicro (addMicro t d) = toMicro t + d :=
  toMicro_fromMicro _

/-! ## Digit rendering and parsing lemmas -/

theorem digChar_isDigit : ∀ d : Nat, (digChar d).isDigit = true
  | 0 | 1 | 2 | 3 | 4 | 5 | 6 | 7 | 8 => rfl
  | _ + 9 => rfl

theorem charDigVal_digChar : ∀ d : Nat, d < 10 → charDigVal (digChar d) = d
  | 0, _ | 1, _ | 2, _ | 3, _ | 4, _ | 5, _ | 6, _ | 7, _ | 8, _ | 9, _ => rfl
  | n + 10, h => absurd h (by omega)

theorem padDigits_length (w : Nat) : ∀ n, (padDigits w n).length = w := by
  induction w with
  | zero => intro n; rfl
  | succ w ih => intro n; simp [padDigits, ih]

theorem padChars_length (w n : Nat) : (padChars w n).length = w := by
  simp [padChars, padDigits_length]

theorem padChars_digits (w n : Nat) : (padChars w n).all Char.isDigit = true := by
  induction w generalizing n with
  | zero => rfl
  | succ w ih =>
    simp only [padChars, padDigits, List.map_append, List.all_append] at *
    simp [ih, digChar_isDigit]

theorem padChars_succ (w n : Nat) :
    padChars (w + 1) n = padChars w (n / 10) ++ [digChar (n % 10)] := by
  simp [padChars, padDigits]

theorem parseNat_fold (w : Nat) :
    ∀ n acc, n < 10 ^ w →
      (padChars w n).foldl (fun a c => 10 * a + charDigVal c) acc = acc * 10 ^ w + n := by
  induction w with
  | zero =>
    intro n acc h
    simp [padChars, padDigits]
    omega
  | succ w ih =>
    intro n acc h
    have hp : 10 ^ (w + 1) = 10 ^ w * 10 := pow_succ 10 w
    rw [padChars_succ, List.foldl_append, ih (n / 10) acc (by omega)]
    simp only [List.foldl_cons, List.foldl_nil]
    rw [charDigVal_digChar (n % 10) (by omega)]
    rw [hp]
    ring_nf
    omega

/-- Parsing a zero-padded rendering recovers the number. -/
theorem parseNat_padChars (w n : Nat) (h0 : 0 < w) (h : n < 10 ^ w) :
    parseNat (padChars w n) = some n := by
  have hne : padChars w n ≠ [] := by
    intro he
    have := padChars_length w n
    rw [he] at this
    simp at this
    omega
  unfold parseNat
  rw [if_pos ⟨hne, padChars_digits w n⟩]
  rw [parseNat_fold w n 0 h]
  simp

/-- The unpadded rendering of a four-digit number is its padded
rendering. -/
theorem yearStr_eq_padChars (y : Nat) (h : 1000 ≤ y) : yearStr y = padChars 4 y := by
  unfold yearStr
  rw [if_neg (by omega), if_neg (by omega), if_neg (by omega)]

/-- A fixed-width digit group is taken exactly from the front. -/
theorem takeDigits_exact (g r : List Char) (w : Nat) (hl : g.length = w)
    (hd : g.all Char.isDigit = true) : takeDigits w (g ++ r) = some (g, r) := by
  subst hl
  unfold takeDigits
  rw [List.take_left, List.drop_left]
  rw [if_pos ⟨rfl, hd⟩]

/-- An expected literal is removed from the front. -/
theorem stripLead_append (l r : List Char) : stripLead l (l ++ r) = some r := by
  induction l with
  | nil => rfl
  | cons c cs ih => simp [stripLead, ih]

/-- A separator character is consumed. -/
theorem expectChar_cons (c : Char) (r : List Char) : expectChar c (c :: r) = some r := by
  simp [expectChar]

/-- One numeric field followed by its separator parses back exactly. -/
theorem parseField_exact (w n : Nat) (sep : Char) (r : List Char)
    (h0 : 0 < w) (h : n < 10 ^ w) :
    parseField w sep (padChars w n ++ sep :: r) = some (n, r) := by
  unfold parseField
  simp [takeDigits_exact (padChars w n) (sep :: r) w (padChars_length w n) (padChars_digits w n),
    expectChar_cons, parseNat_padChars w n h0 h]

/-- Writing a datetime with `strftime` and reading it back with
`strptime` is the identity on valid datetimes with four-digit years. -/
theorem dtParse_dtFormat (t : DateTime) (hv : ValidDT t) (hy : 1000 ≤ t.year) :
    dtParse (dtFormat t) = some t := by
  obtain ⟨h1, h2, h3, h4, h5, h6, h7, h8, h9, h10⟩ := hv
  have hmo : t.month < 10 ^ 2 := by omega
  have hd : t.day < 10 ^ 2 := by
    have : daysInMonth t.year t.month ≤ 31 := by
      unfold daysInMonth
      split_ifs <;> omega
    omega
  unfold dtFormat dtParse
  rw [parseField_exact 4 t.year '-' _ (by omega) (by omega)]
  dsimp only
  rw [parseField_exact 2 t.month '-' _ (by omega) hmo]
  dsimp only
  rw [parseField_exact 2 t.day 'T' _ (by omega) hd]
  dsimp only
  rw [parseField_exact 2 t.hour ':' _ (by omega) (by omega)]
  dsimp only
  rw [parseField_exact 2 t.minute ':' _ (by omega) (by omega)]
  dsimp only
  rw [parseField_exact 2 t.second '.' _ (by omega) (by omega)]
  dsimp only
  rw [show padChars 6 t.microsecond = padChars 6 t.microsecond ++ [] from
    (List.append_nil _).symm]
  rw [takeDigits_exact _ [] 6 (padChars_length _ _) (padChars_digits _ _)]
  dsimp only
  rw [if_pos rfl]
  rw [parseNat_padChars 6 t.microsecond (by omega) (by omega)]
  dsimp only
  rw [if_pos (show ValidDT ⟨t.year, t.month, t.day, t.hour, t.minute, t.second,
    t.microsecond⟩ from ⟨h1, h2, h3, h4, h5, h6, h7, h8, h9, h10⟩)]

/-- C8: saving the path-to-interval cache and loading it back restores
every entry exactly, for entries whose timestamps are valid datetimes
with four-digit years (the timestamps representable in the
`%Y-%m-%dT%H:%M:%S.%f` format). -/
theorem C8_cache_round_trip (cache : List (List Char × DateTime × DateTime))
    (h : ∀ en ∈ cache, ValidDT en.2.1 ∧ ValidDT en.2.2 ∧
      1000 ≤ en.2.1.year ∧ 1000 ≤ en.2.2.year) :
    loadCache (saveCache cache) = some cache := by
  induction cache with
  | nil => rfl
  | cons e rest ih =>
    obtain ⟨hv1, hv2, hy1, hy2⟩ := h e (by simp)
    have hrest := ih fun x hx => h x (by simp [hx])
    simp only [saveCache, loadCache, List.map_cons] at hrest ⊢
    simp [dtParse_dtFormat e.2.1 hv1 hy1, dtParse_dtFormat e.2.2 hv2 hy2, hrest]

/-- Witness for C8 at a concrete one-entry cache. -/
theorem C8_cache_round_trip_witness :
    (∀ en ∈ ([("f.nc".toList,
        (⟨2017, 1, 2, 3, 4, 5, 6⟩ : DateTime), (⟨2017, 1, 3, 0, 0, 0, 0⟩ : DateTime))] :
          List (List Char × DateTime × DateTime)),
      ValidDT en.2.1 ∧ ValidDT en.2.2 ∧ 1000 ≤ en.2.1.year ∧ 1000 ≤ en.2.2.year) ∧
    loadCache (saveCache [("f.nc".toList,
        (⟨2017, 1, 2, 3, 4, 5, 6⟩ : DateTime), (⟨2017, 1, 3, 0, 0, 0, 0⟩ : DateTime))]) =
      some [("f.nc".toList,
        (⟨2017, 1, 2, 3, 4, 5, 6⟩ : DateTime), (⟨2017, 1, 3, 0, 0, 0, 0⟩ : DateTime))] :=
  ⟨by decide, C8_cache_round_trip _ (by decide)⟩

/-- Unfolding step of the placeholder loop. -/
theorem createDateLoop_cons (pfx : String) (excl : Option String)
    (values : List (List Char)) (p : String) (ps : List String) (i : Nat) (args : Args) :
    createDateLoop pfx excl values (p :: ps) i args =
      match values.get? i with
      | none => .error .indexError
      | some vstr =>
        match parseNat vstr with
        | none => .error .badDate
        | some v =>
          createDateLoop pfx excl values ps (i + 1)
            (if p = pfx ++ "year2" then
              setArg args "year" (if v < 65 then 2000 + v else 1900 + v)
            else if p = pfx ++ "millisecond" then
              setArg args (pfx ++ "microsecond") (v * 1000)
            else if (match excl with
                     | none => true
                     | some e => !(strStarts p e)) && strStarts p pfx then
              setArg args (strDrop p (strLen pfx)) v
            else args) := rfl

/-- Base case of the placeholder loop. -/
theorem createDateLoop_nil (pfx : String) (excl : Option String)
    (values : List (List Char)) (i : Nat) (args : Args) :
    createDateLoop pfx excl values [] i args = .ok args := rfl

/-! ## year2 disambiguation -/

/-- C4: for every matched two-digit year value v,
`_create_date_from_placeholders` interprets v < 65 as year 2000 + v and
v ≥ 65 as year 1900 + v; resolving `58/01/02` against
`{year2}/{month}/{day}` yields year 2058 and `70/01/02` yields 1970. -/
theorem C4_year2_disambiguation :
    (∀ v : Nat, v < 100 →
      createDate ["year2"] [padChars 2 v] "" (some "end_") none =
        .ok [("year", if v < 65 then 2000 + v else 1900 + v)]) ∧
    retrieveTimeCoverage "x" true year2Template "58/01/02".toList =
      .ok (⟨2058, 1, 2, 0, 0, 0, 0⟩, ⟨2058, 1, 3, 0, 0, 0, 0⟩) ∧
    retrieveTimeCoverage "x" true year2Template "70/01/02".toList =
      .ok (⟨1970, 1, 2, 0, 0, 0, 0⟩, ⟨1970, 1, 3, 0, 0, 0, 0⟩) := by
  refine ⟨?_, by rfl, by rfl⟩
  intro v hv
  unfold createDate
  simp [createDateLoop_cons, createDateLoop_nil,
    parseNat_padChars 2 v (by omega) hv, setArg]

/-- Witness for the universally quantified part of C4 at v = 58. -/
theorem C4_year2_disambiguation_witness :
    (58 : Nat) < 100 ∧
    createDate ["year2"] [padChars 2 58] "" (some "end_") none =
      .ok [("year", if 58 < 65 then 2000 + 58 else 1900 + 58)] :=
  ⟨by decide, C4_year2_disambiguation.1 58 (by decide)⟩

/-! ## Unreachability of the resolution-unit fallback -/

/-- C9 counterexample: resolving `2017/01` against `{year}/{month}` with
continuous mode fails with the TypeError of the `datetime` constructor
(missing day argument, `badDate`), not with the TypeError of adding
`None` to a datetime (`noResolution`) that the claim describes. -/
theorem C9_counterexample :
    retrieveTimeCoverage "x" true yearMonthTemplate "2017/01".toList =
      .error .badDate ∧
    RErr.badDate ≠ RErr.noResolution := ⟨by rfl, by decide⟩

/-- C9 amended: a template with only year and month placeholders makes
resolution raise the TypeError of the `datetime` constructor; the
`None`-addition TypeError is unreachable because every successfully
constructed start date carries a day entry, so `_get_time_resolution`
always finds a time unit. -/
theorem C9_type_error_amended :
    retrieveTimeCoverage "x" true yearMonthTemplate "2017/01".toList =
      .error .badDate ∧
    (∀ (args : Args) (t : DateTime), datetimeFromArgs args = .ok t →
      getTimeResolution args ≠ none) := by
  refine ⟨by rfl, ?_⟩
  intro args t h hres
  have hd : (lookupArg args "day").isSome := by
    unfold datetimeFromArgs at h
    split_ifs at h
    cases hy : lookupArg args "year" <;> rw [hy] at h <;>
      cases hm : lookupArg args "month" <;> try rw [hm] at h
    all_goals cases hdd : lookupArg args "day" <;> rw [hdd] at h <;>
      simp_all
  have hk : hasKey args "day" = true := by simpa [hasKey] using hd
  unfold getTimeResolution at hres
  split_ifs at hres

/-- Witness for the universally quantified part of C9 at concrete
arguments. -/
theorem C9_type_error_witness :
    datetimeFromArgs [("year", 2017), ("month", 1), ("day", 2)] =
      .ok ⟨2017, 1, 2, 0, 0, 0, 0⟩ ∧
    getTimeResolution [("year", 2017), ("month", 1), ("day", 2)] ≠ none :=
  ⟨by rfl, C9_type_error_amended.2 _ ⟨2017, 1, 2, 0, 0, 0, 0⟩ (by rfl)⟩

/-! ## The shared placeholder table -/

/-- C10: the `name` entry of the class-level placeholder table is
overwritten by every dataset construction, so after building dataset A
and then dataset B, the matcher of the `{name}`-bearing template of A
matches a path carrying the name of B and no longer matches the path A
itself generated (which it would match under the entry A wrote). -/
theorem C10_shared_placeholder_table :
    (∀ table a b : String, constructDataset (constructDataset table a) b = b) ∧
    (matchAt (constructDataset (constructDataset "tbl" "A") "B") nameTemplate
      "B_20170101.nc".toList).isSome = true ∧
    matchAt (constructDataset (constructDataset "tbl" "A") "B") nameTemplate
      "A_20170101.nc".toList = none ∧
    (matchAt "A" nameTemplate "A_20170101.nc".toList).isSome = true := by
  exact ⟨fun _ _ _ => rfl, by decide, by decide, by decide⟩

/-! ## The interval invariant and the day-rollover correction -/

/-- C3 counterexample: with an `end_day` placeholder resolving more than
one day before the start, the returned interval still has end before
start after the one-day correction: `2017-05-10x01` resolves to the pair
(2017-05-10, 2017-05-02). -/
theorem C3_counterexample :
    retrieveTimeCoverage "x" true endDayTemplate "2017-05-10x01".toList =
      .ok (⟨2017, 5, 10, 0, 0, 0, 0⟩, ⟨2017, 5, 2, 0, 0, 0, 0⟩) ∧
    dtLt ⟨2017, 5, 2, 0, 0, 0, 0⟩ ⟨2017, 5, 10, 0, 0, 0, 0⟩ = true := by
  constructor
  · rfl
  · decide

/-- C3 amended: an interval whose end is resolved earlier than its start
has one calendar day added to the end, and the returned interval
satisfies start ≤ end, whenever the resolved end lies at most one day
before the resolved start (as for an hour-only file spanning midnight)
and the corrected end is still representable (at most `datetime.max`);
a correction that would pass `datetime.max` raises OverflowError instead
of returning an interval, and ends resolved more than one day early
still violate the invariant. -/
theorem C3_rollover_correction (s e2 : DateTime)
    (h : toMicro s ≤ toMicro e2 + 86400000000)
    (hov : dtLt e2 s = true → toMicro e2 + 86400000000 ≤ maxMicro) :
    (if dtLt e2 s then
       match addMicroE e2 86400000000 with
       | .error err => Except.error err
       | .ok e3 => Except.ok (s, e3)
     else Except.ok (s, e2)) =
      .ok (s, if dtLt e2 s then addMicro e2 86400000000 else e2) ∧
    dtLe s (if dtLt e2 s then addMicro e2 86400000000 else e2) = true ∧
    retrieveTimeCoverage "x" true hourSpanTemplate "2017-05-10T23_01".toList =
      .ok (⟨2017, 5, 10, 23, 0, 0, 0⟩, ⟨2017, 5, 11, 1, 0, 0, 0⟩) ∧
    retrieveTimeCoverage "x" true hourSpanTemplate "9999-12-31T23_01".toList =
      .error .overflow := by
  refine ⟨?_, ?_, by rfl, by rfl⟩
  · by_cases hc : dtLt e2 s = true
    · rw [if_pos hc, if_pos hc]
      have hext : addMicroE e2 86400000000 = Except.ok (addMicro e2 86400000000) := by
        unfold addMicroE
        rw [if_pos (hov hc)]
      rw [hext]
    · rw [if_neg hc, if_neg hc]
  · by_cases hc : dtLt e2 s = true
    · rw [if_pos hc]
      simp only [dtLe, toMicro_addMicro, decide_eq_true_eq]
      omega
    · rw [if_neg hc]
      simp only [dtLt, decide_eq_true_eq] at hc
      simp only [dtLe, decide_eq_true_eq]
      omega

/-- Witness for C3 amended at a concrete pair one hour apart. -/
theorem C3_rollover_correction_witness :
    toMicro ⟨2017, 5, 10, 23, 0, 0, 0⟩ ≤ toMicro ⟨2017, 5, 10, 22, 0, 0, 0⟩ + 86400000000 ∧
    (dtLt ⟨2017, 5, 10, 22, 0, 0, 0⟩ ⟨2017, 5, 10, 23, 0, 0, 0⟩ = true →
      toMicro ⟨2017, 5, 10, 22, 0, 0, 0⟩ + 86400000000 ≤ maxMicro) ∧
    dtLe ⟨2017, 5, 10, 23, 0, 0, 0⟩
      (if dtLt ⟨2017, 5, 10, 22, 0, 0, 0⟩ ⟨2017, 5, 10, 23, 0, 0, 0⟩ then
        addMicro ⟨2017, 5, 10, 22, 0, 0, 0⟩ 86400000000
      else ⟨2017, 5, 10, 22, 0, 0, 0⟩) = true :=
  ⟨by decide, by decide,
   (C3_rollover_correction ⟨2017, 5, 10, 23, 0, 0, 0⟩ ⟨2017, 5, 10, 22, 0, 0, 0⟩
     (by decide) (by decide)).2.1⟩

/-! ## The no-files policy -/

/-- C5: when the search finds no file of the dataset in the query
interval (the searched enumeration yields an empty result), `find_files`
with `no_files_error=True` raises `NoFilesError` and with
`no_files_error=False` returns the empty sequence without raising. -/
theorem C5_no_files_policy (tn : String) (cont : Bool) (tmpl : Template)
    (cands : List (List Char)) (s e : DateTime) (sortFlag : Bool)
    (h : findFiles tn cont tmpl cands s e sortFlag false = .ok []) :
    findFiles tn cont tmpl cands s e sortFlag true = .error .noFiles ∧
    findFiles tn cont tmpl cands s e sortFlag false = .ok [] := by
  refine ⟨?_, h⟩
  unfold findFiles at h ⊢
  cases hg : gatherFound tn cont tmpl s e
      (cands.filter fun f => (matchAt tn tmpl f).isSome) with
  | error err => rw [hg] at h; simp at h
  | ok found =>
    rw [hg] at h
    simp only [Bool.false_eq_true, false_and, if_false, Except.ok.injEq] at h
    simp [h]

/-- Witness for C5 with an empty candidate enumeration. -/
theorem C5_no_files_policy_witness :
    findFiles "x" true dayTemplate [] ⟨2017, 1, 1, 0, 0, 0, 0⟩ ⟨2017, 2, 1, 0, 0, 0, 0⟩
      true false = .ok [] ∧
    findFiles "x" true dayTemplate [] ⟨2017, 1, 1, 0, 0, 0, 0⟩ ⟨2017, 2, 1, 0, 0, 0, 0⟩
      true true = .error .noFiles :=
  ⟨by rfl, (C5_no_files_policy "x" true dayTemplate []
    ⟨2017, 1, 1, 0, 0, 0, 0⟩ ⟨2017, 2, 1, 0, 0, 0, 0⟩ true (by rfl)).1⟩

/-! ## Sorting of search results -/

/-- Membership in a stable insertion. -/
theorem insertLe_mem {α : Type} (le : α → α → Bool) (x y : α) (l : List α)
    (hy : y ∈ insertLe le x l) : y = x ∨ y ∈ l := by
  induction l with
  | nil => simpa [insertLe] using hy
  | cons a as ih =>
    unfold insertLe at hy
    by_cases hc : le x a = true
    · rw [if_pos hc] at hy
      simpa using hy
    · rw [if_neg hc] at hy
      rcases List.mem_cons.mp hy with h1 | h2
      · right; exact h1 ▸ List.mem_cons_self a as
      · rcases ih h2 with h3 | h4
        · left; exact h3
        · right; exact List.mem_cons_of_mem a h4

/-- Stable insertion preserves sortedness by interval start. -/
theorem insertLe_sorted (x : List Char × (DateTime × DateTime))
    (l : List (List Char × (DateTime × DateTime)))
    (hl : l.Pairwise (fun a b => toMicro a.2.1 ≤ toMicro b.2.1)) :
    (insertLe pairLe x l).Pairwise (fun a b => toMicro a.2.1 ≤ toMicro b.2.1) := by
  induction l with
  | nil => simp [insertLe]
  | cons a as ih =>
    rw [List.pairwise_cons] at hl
    obtain ⟨h1, h2⟩ := hl
    unfold insertLe
    by_cases hc : pairLe x a = true
    · rw [if_pos hc]
      simp only [pairLe, dtLe, decide_eq_true_eq] at hc
      refine List.Pairwise.cons ?_ (List.Pairwise.cons h1 h2)
      intro b hb
      rcases List.mem_cons.mp hb with rfl | hb2
      · exact hc
      · exact le_trans hc (h1 b hb2)
    · rw [if_neg hc]
      simp only [pairLe, dtLe, decide_eq_true_eq] at hc
      refine List.Pairwise.cons ?_ (ih h2)
      intro b hb
      rcases insertLe_mem pairLe x b as hb with rfl | hb2
      · omega
      · exact h1 b hb2

/-- The stable sort by interval start produces a sorted list. -/
theorem sortLe_sorted (l : List (List Char × (DateTime × DateTime))) :
    (sortLe pairLe l).Pairwise (fun a b => toMicro a.2.1 ≤ toMicro b.2.1) := by
  induction l with
  | nil => simp [sortLe]
  | cons a as ih => exact insertLe_sorted a _ ih

/-- C7: in whatever enumeration order the filesystem yields the
candidate files, `find_files` with `sort=True` returns the
(file, interval) pairs ordered by nondecreasing interval start times. -/
theorem C7_find_sorting (tn : String) (cont : Bool) (tmpl : Template)
    (cands : List (List Char)) (s e : DateTime) (noFilesError : Bool)
    (l : List (List Char × (DateTime × DateTime)))
    (h : findFiles tn cont tmpl cands s e true noFilesError = .ok l) :
    l.Pairwise (fun a b => toMicro a.2.1 ≤ toMicro b.2.1) := by
  unfold findFiles at h
  cases hg : gatherFound tn cont tmpl s e
      (cands.filter fun f => (matchAt tn tmpl f).isSome) with
  | error err => rw [hg] at h; simp at h
  | ok found =>
    rw [hg] at h
    simp only [if_true] at h
    split at h
    · simp at h
    · rw [Except.ok.injEq] at h
      subst h
      exact sortLe_sorted found

/-- Witness for C7 at a shuffled two-file enumeration. -/
theorem C7_find_sorting_witness :
    findFiles "x" true dayTemplate ["2017/11/13.ext".toList, "2017/11/12.ext".toList]
      ⟨2017, 11, 11, 0, 0, 0, 0⟩ ⟨2017, 11, 20, 0, 0, 0, 0⟩ true true =
      .ok [("2017/11/12.ext".toList,
              (⟨2017, 11, 12, 0, 0, 0, 0⟩, ⟨2017, 11, 13, 0, 0, 0, 0⟩)),
           ("2017/11/13.ext".toList,
              (⟨2017, 11, 13, 0, 0, 0, 0⟩, ⟨2017, 11, 14, 0, 0, 0, 0⟩))] ∧
    List.Pairwise (fun a b => toMicro a.2.1 ≤ toMicro b.2.1)
      [("2017/11/12.ext".toList,
          ((⟨2017, 11, 12, 0, 0, 0, 0⟩ : DateTime), (⟨2017, 11, 13, 0, 0, 0, 0⟩ : DateTime))),
       ("2017/11/13.ext".toList,
          (⟨2017, 11, 13, 0, 0, 0, 0⟩, ⟨2017, 11, 14, 0, 0, 0, 0⟩))] :=
  ⟨by rfl, C7_find_sorting "x" true dayTemplate
    ["2017/11/13.ext".toList, "2017/11/12.ext".toList]
    ⟨2017, 11, 11, 0, 0, 0, 0⟩ ⟨2017, 11, 20, 0, 0, 0, 0⟩ true
    [("2017/11/12.ext".toList,
        (⟨2017, 11, 12, 0, 0, 0, 0⟩, ⟨2017, 11, 13, 0, 0, 0, 0⟩)),
     ("2017/11/13.ext".toList,
        (⟨2017, 11, 13, 0, 0, 0, 0⟩, ⟨2017, 11, 14, 0, 0, 0, 0⟩))] (by rfl)⟩

/-! ## Dictionary update lemmas -/

theorem lookupArg_setArg_ne (a : Args) (k k2 : String) (v : Nat) (h : k ≠ k2) :
    lookupArg (setArg a k v) k2 = lookupArg a k2 := by
  induction a with
  | nil => simp [setArg, lookupArg, h]
  | cons e rest ih =>
    obtain ⟨k0, v0⟩ := e
    unfold setArg
    by_cases hk : k0 = k
    · subst hk
      rw [if_pos rfl]
      unfold lookupArg
      by_cases h2 : k0 = k2
      · exact absurd h2 h
      · rw [if_neg h2, if_neg h2]
    · rw [if_neg hk]
      unfold lookupArg
      by_cases h2 : k0 = k2
      · rw [if_pos h2, if_pos h2]
      · rw [if_neg h2, if_neg h2]; exact ih

theorem hasKey_setArg_ne (a : Args) (k k2 : String) (v : Nat) (h : k ≠ k2) :
    hasKey (setArg a k v) k2 = hasKey a k2 := by
  simp [hasKey, lookupArg_setArg_ne a k k2 v h]

theorem lookupArg_eraseArg_ne (a : Args) (k k2 : String) (h : k ≠ k2) :
    lookupArg (eraseArg a k) k2 = lookupArg a k2 := by
  induction a with
  | nil => rfl
  | cons e rest ih =>
    obtain ⟨k0, v0⟩ := e
    unfold eraseArg
    by_cases hk : k0 = k
    · subst hk
      rw [if_pos rfl]
      by_cases h2 : k0 = k2
      · exact absurd h2 h
      · show lookupArg rest k2 = if k0 = k2 then some v0 else lookupArg rest k2
        rw [if_neg h2]
    · rw [if_neg hk]
      unfold lookupArg
      by_cases h2 : k0 = k2
      · rw [if_pos h2, if_pos h2]
      · rw [if_neg h2, if_neg h2]; exact ih

theorem hasKey_eraseArg_ne (a : Args) (k k2 : String) (h : k ≠ k2) :
    hasKey (eraseArg a k) k2 = hasKey a k2 := by
  simp [hasKey, lookupArg_eraseArg_ne a k k2 h]

/-- A string that starts with a prefix is that prefix followed by the
rest. -/
theorem strStarts_drop (p pfx : String) (h : strStarts p pfx = true) :
    p = pfx ++ strDrop p (strLen pfx) := by
  unfold strStarts at h
  rw [decide_eq_true_eq] at h
  unfold strDrop strLen
  cases p with
  | mk pd =>
    cases pfx with
    | mk fd =>
      simp only [String.toList] at h ⊢
      rw [show String.mk fd ++ String.mk (List.drop fd.length pd) =
        String.mk (fd ++ List.drop fd.length pd) from rfl]
      refine congrArg String.mk ?_
      conv_lhs => rw [← List.take_append_drop fd.length pd]
      rw [← h]

/-! ## The resolver never stores a millisecond key -/

/-- The placeholder loop never inserts the key `"millisecond"`: the
millisecond branch stores under the prefixed microsecond key, and the
generic branch strips the prefix from a name that is not the prefixed
millisecond. -/
theorem createDateLoop_no_ms (pfx : String) (excl : Option String)
    (values : List (List Char)) (hpfx : pfx = "" ∨ pfx = "end_") :
    ∀ (phs : List String) (i : Nat) (args0 args : Args),
      hasKey args0 "millisecond" = false →
      createDateLoop pfx excl values phs i args0 = .ok args →
      hasKey args "millisecond" = false := by
  intro phs
  induction phs with
  | nil =>
    intro i a0 a h0 h
    rw [createDateLoop_nil] at h
    cases h
    exact h0
  | cons p ps ih =>
    intro i a0 a h0 h
    rw [createDateLoop_cons] at h
    cases hv : values.get? i with
    | none => rw [hv] at h; simp at h
    | some vstr =>
      rw [hv] at h
      dsimp only at h
      cases hp : parseNat vstr with
      | none => rw [hp] at h; simp at h
      | some v =>
        rw [hp] at h
        dsimp only at h
        refine ih (i + 1) _ a ?_ h
        by_cases h1 : p = pfx ++ "year2"
        · rw [if_pos h1, hasKey_setArg_ne _ _ _ _ (by decide)]; exact h0
        · rw [if_neg h1]
          by_cases h2 : p = pfx ++ "millisecond"
          · rw [if_pos h2]
            rcases hpfx with rfl | rfl
            · rw [hasKey_setArg_ne _ _ _ _ (by decide)]; exact h0
            · rw [hasKey_setArg_ne _ _ _ _ (by decide)]; exact h0
          · rw [if_neg h2]
            split
            · rename_i h3
              have hs : strStarts p pfx = true := by
                rw [Bool.and_eq_true] at h3
                exact h3.2
              have hne : strDrop p (strLen pfx) ≠ "millisecond" := fun he =>
                h2 (by rw [strStarts_drop p pfx hs, he])
              rw [hasKey_setArg_ne _ _ _ _ hne]; exact h0
            · exact h0

/-- `_create_date_from_placeholders` never produces a dict with a
`"millisecond"` key. -/
theorem createDate_no_ms (phs : List String) (values : List (List Char))
    (pfx : String) (excl : Option String) (dflt : Option Args) (args : Args)
    (hpfx : pfx = "" ∨ pfx = "end_")
    (hd : ∀ d, dflt = some d → hasKey d "millisecond" = false)
    (h : createDate phs values pfx excl dflt = .ok args) :
    hasKey args "millisecond" = false := by
  unfold createDate at h
  have h0 : hasKey (dflt.getD []) "millisecond" = false := by
    cases dflt with
    | none => rfl
    | some d => exact hd d rfl
  cases hl : createDateLoop pfx excl values phs 0 (dflt.getD []) with
  | error err => rw [hl] at h; simp at h
  | ok largs =>
    rw [hl] at h
    dsimp only at h
    have hlm : hasKey largs "millisecond" = false :=
      createDateLoop_no_ms pfx excl values hpfx phs 0 _ largs h0 hl
    split_ifs at h with hdoy
    · cases hy : lookupArg largs "year" with
      | none => rw [hy] at h; simp at h
      | some y =>
        cases hdy : lookupArg largs "doy" with
        | none => rw [hy, hdy] at h; simp at h
        | some doy =>
          rw [hy, hdy] at h
          dsimp only at h
          split_ifs at h with hyr
          · cases h
            rw [hasKey_eraseArg_ne _ _ _ (by decide),
              hasKey_setArg_ne _ _ _ _ (by decide),
              hasKey_setArg_ne _ _ _ _ (by decide)]
            exact hlm
    · cases h
      exact hlm

/-! ## Continuity extension -/

/-- C2 counterexample: for a file whose template carries both second and
millisecond placeholders and whose start equals its end, the continuous
extension adds one second, not one millisecond: `2017-01-02T03:04:05.678`
resolves with end 03:04:06.678000, while the claimed
millisecond-priority extension would give 03:04:05.679000. -/
theorem C2_counterexample :
    retrieveTimeCoverage "x" true secMsTemplate "2017-01-02T03:04:05.678".toList =
      .ok (⟨2017, 1, 2, 3, 4, 5, 678000⟩, ⟨2017, 1, 2, 3, 4, 6, 678000⟩) ∧
    (⟨2017, 1, 2, 3, 4, 6, 678000⟩ : DateTime) ≠ ⟨2017, 1, 2, 3, 4, 5, 679000⟩ :=
  ⟨by rfl, by decide⟩

/-- C2 amended: the day-only example behaves as claimed (continuous gives
the full day, non-continuous the degenerate interval), and when
continuous and start equals end, the end is extended by the finest time
unit among the resolved placeholders with priority second > minute >
hour > day; the millisecond unit is never selected because the parsed
dict stores millisecond values under the key `"microsecond"` while the
resolution lookup checks `"millisecond"`, a key the dict never
contains. -/
theorem C2_continuity_extension :
    retrieveTimeCoverage "x" true dayTemplate "2017/11/12.ext".toList =
      .ok (⟨2017, 11, 12, 0, 0, 0, 0⟩, ⟨2017, 11, 13, 0, 0, 0, 0⟩) ∧
    retrieveTimeCoverage "x" false dayTemplate "2017/11/12.ext".toList =
      .ok (⟨2017, 11, 12, 0, 0, 0, 0⟩, ⟨2017, 11, 12, 0, 0, 0, 0⟩) ∧
    (∀ args : Args, hasKey args "millisecond" = false →
      (hasKey args "second" = true → getTimeResolution args = some 1000000) ∧
      (hasKey args "second" = false → hasKey args "minute" = true →
        getTimeResolution args = some 60000000) ∧
      (hasKey args "second" = false → hasKey args "minute" = false →
        hasKey args "hour" = true → getTimeResolution args = some 3600000000) ∧
      (hasKey args "second" = false → hasKey args "minute" = false →
        hasKey args "hour" = false → hasKey args "day" = true →
        getTimeResolution args = some 86400000000)) ∧
    (∀ (phs : List String) (values : List (List Char)) (args : Args),
      createDate phs values "" (some "end_") none = .ok args →
      hasKey args "millisecond" = false) := by
  refine ⟨by rfl, by rfl, ?_, ?_⟩
  · intro args hms
    refine ⟨?_, ?_, ?_, ?_⟩ <;> intros <;> unfold getTimeResolution <;> simp_all
  · intro phs values args h
    exact createDate_no_ms phs values "" (some "end_") none args (Or.inl rfl)
      (by intro d hd; cases hd) h

/-- Witness for the quantified parts of C2 at concrete dictionaries. -/
theorem C2_continuity_extension_witness :
    hasKey [("year", 2017), ("month", 11), ("day", 12)] "millisecond" = false ∧
    hasKey [("year", 2017), ("month", 11), ("day", 12)] "second" = false ∧
    hasKey [("year", 2017), ("month", 11), ("day", 12)] "minute" = false ∧
    hasKey [("year", 2017), ("month", 11), ("day", 12)] "hour" = false ∧
    hasKey [("year", 2017), ("month", 11), ("day", 12)] "day" = true ∧
    getTimeResolution [("year", 2017), ("month", 11), ("day", 12)] =
      some 86400000000 ∧
    createDate ["year", "month", "day"]
      ["2017".toList, "11".toList, "12".toList] "" (some "end_") none =
      .ok [("year", 2017), ("month", 11), ("day", 12)] ∧
    hasKey [("year", 2017), ("month", 11), ("day", 12)] "millisecond" = false :=
  ⟨rfl, rfl, rfl, rfl, rfl, (C2_continuity_extension.2.2.1
      [("year", 2017), ("month", 11), ("day", 12)] rfl).2.2.2 rfl rfl rfl rfl, rfl,
    C2_continuity_extension.2.2.2 ["year", "month", "day"]
      ["2017".toList, "11".toList, "12".toList]
      [("year", 2017), ("month", 11), ("day", 12)] rfl⟩

/-! ## Millisecond and end-prefixed placeholders -/

/-- C6: a matched `{millisecond}` value m does set the start sub-second
part to m·1000 microseconds, but the `end_millisecond` counterpart is
broken: its value is stored under the key `end_microsecond`, which the
`datetime` constructor rejects, so resolving any template containing
`{end_millisecond}` raises a TypeError instead of setting the end
sub-second part. -/
theorem C6_millisecond_microseconds :
    (∀ m : Nat, m < 1000 →
      createDate ["millisecond"] [padChars 3 m] "" (some "end_") none =
        .ok [("microsecond", m * 1000)]) ∧
    retrieveTimeCoverage "x" true secMsTemplate "2017-01-02T03:04:05.678".toList =
      .ok (⟨2017, 1, 2, 3, 4, 5, 678000⟩, ⟨2017, 1, 2, 3, 4, 6, 678000⟩) ∧
    retrieveTimeCoverage "x" true endMsTemplate "2017-01-02T03:04:05.678x901".toList =
      .error .badDate ∧
    (∃ endArgs, createDate (templatePlaceholders endMsTemplate)
        ["2017".toList, "01".toList, "02".toList, "03".toList, "04".toList,
         "05".toList, "678".toList, "901".toList] "end_" none
        (some [("year", 2017), ("month", 1), ("day", 2), ("hour", 3), ("minute", 4),
               ("second", 5), ("microsecond", 678000)]) = .ok endArgs ∧
      hasKey endArgs "end_microsecond" = true ∧
      datetimeFromArgs endArgs = .error .badDate) := by
  refine ⟨?_, by rfl, by rfl, ?_⟩
  · intro m hm
    unfold createDate
    simp [createDateLoop_cons, createDateLoop_nil,
      parseNat_padChars 3 m (by omega) hm, setArg]
  · exact ⟨_, rfl, by rfl, by rfl⟩

/-- Witness for the quantified part of C6 at m = 678. -/
theorem C6_millisecond_microseconds_witness :
    (678 : Nat) < 1000 ∧
    createDate ["millisecond"] [padChars 3 678] "" (some "end_") none =
      .ok [("microsecond", 678 * 1000)] :=
  ⟨by decide, C6_millisecond_microseconds.1 678 (by decide)⟩

/-! ## Round-trip matching infrastructure -/

theorem templatePlaceholders_lit (str : String) (ts : Template) :
    templatePlaceholders (Tok.lit str :: ts) = templatePlaceholders ts := rfl

theorem templatePlaceholders_ph (q : String) (ts : Template) :
    templatePlaceholders (Tok.ph q :: ts) = q :: templatePlaceholders ts := rfl

theorem generateFilename_cons (sn : String) (s e : DateTime) (t : Tok) (ts : Template) :
    generateFilename sn s e (t :: ts) =
      match tokFill sn s e t, generateFilename sn s e ts with
      | some c, some rest => some (c ++ rest)
      | _, _ => none := rfl

theorem matchAt_lit (tn : String) (str : String) (ts : Template) (cs : List Char) :
    matchAt tn (Tok.lit str :: ts) cs =
      match stripLead str.toList cs with
      | none => none
      | some rest => matchAt tn ts rest := rfl

theorem matchAt_ph (tn : String) (q : String) (ts : Template) (cs : List Char) :
    matchAt tn (Tok.ph q :: ts) cs =
      if q = "name" then
        match stripLead tn.toList cs with
        | none => none
        | some rest => matchAt tn ts rest
      else
        match phWidth q with
        | none => none
        | some w =>
          match takeDigits w cs with
          | none => none
          | some (g, rest) => (matchAt tn ts rest).map (g :: ·) := rfl

/-- Filling a template whose placeholders all render as well-formed
fixed-width digit groups produces a path from which the anchored matcher
recovers exactly those groups, whatever follows the path. -/
theorem fill_then_match (tn sn : String) (s e : DateTime) :
    ∀ tmpl : Template,
      (∀ p ∈ templatePlaceholders tmpl, p ≠ "name" ∧
        ∃ w g, phWidth p = some w ∧ phFill sn s e p = some g ∧
          g.length = w ∧ g.all Char.isDigit = true) →
      ∃ out, generateFilename sn s e tmpl = some out ∧
        ∀ rest, matchAt tn tmpl (out ++ rest) =
          some ((templatePlaceholders tmpl).filterMap (phFill sn s e)) := by
  intro tmpl
  induction tmpl with
  | nil =>
    intro _
    exact ⟨[], rfl, fun rest => rfl⟩
  | cons t ts ih =>
    intro hgood
    obtain ⟨out2, hgen2, hmatch2⟩ := ih (fun p hp => hgood p (by
      cases t with
      | lit str => rw [templatePlaceholders_lit]; exact hp
      | ph q => rw [templatePlaceholders_ph]; exact List.mem_cons_of_mem _ hp))
    cases t with
    | lit str =>
      refine ⟨str.toList ++ out2, ?_, ?_⟩
      · rw [generateFilename_cons, hgen2]
        rfl
      · intro rest
        rw [matchAt_lit, List.append_assoc, stripLead_append, templatePlaceholders_lit]
        exact hmatch2 rest
    | ph q =>
      obtain ⟨hqname, w, g, hw, hg, hlen, hdig⟩ :=
        hgood q (by rw [templatePlaceholders_ph]; exact List.mem_cons_self _ _)
      refine ⟨g ++ out2, ?_, ?_⟩
      · rw [generateFilename_cons, hgen2]
        show (match phFill sn s e q, some out2 with
          | some c, some rest => some (c ++ rest)
          | _, _ => none) = some (g ++ out2)
        rw [hg]
      · intro rest
        rw [matchAt_ph, if_neg hqname, hw]
        dsimp only
        rw [List.append_assoc, takeDigits_exact g (out2 ++ rest) w hlen hdig]
        dsimp only
        rw [hmatch2 rest, templatePlaceholders_ph, List.filterMap_cons, hg]
        rfl

/-- A successful anchored match at the start of the path is the leftmost
match of the search. -/
theorem matchSearch_of_matchAt (tn : String) (tmpl : Template) (cs : List Char)
    (g : List (List Char)) (h : matchAt tn tmpl cs = some g) :
    matchSearch tn tmpl cs = some g := by
  cases cs with
  | nil => exact h
  | cons c cs2 =>
    unfold matchSearch
    rw [h]

/-- The resolution pipeline in continuous filename mode, assembled from
the behaviour of its stages. -/
theorem retrieve_pipeline (tn : String) (tmpl : Template) (out : List Char)
    (vals : List (List Char)) (sargs : Args) (sd : DateTime) (u : Nat)
    (hne : ¬ templatePlaceholders tmpl = [])
    (hsearch : matchSearch tn tmpl out = some vals)
    (hlen : ¬ vals.length = 1)
    (hstart : createDate (templatePlaceholders tmpl) vals "" (some "end_") none =
      .ok sargs)
    (hend : createDate (templatePlaceholders tmpl) vals "end_" none (some sargs) =
      .ok sargs)
    (hdt : datetimeFromArgs sargs = .ok sd)
    (hres : getTimeResolution sargs = some u)
    (hin : toMicro sd + u ≤ maxMicro)
    (hroll : dtLt (addMicro sd u) sd = false) :
    retrieveTimeCoverage tn true tmpl out = .ok (sd, addMicro sd u) := by
  have hext : addMicroE sd u = Except.ok (addMicro sd u) := by
    unfold addMicroE
    rw [if_pos hin]
  unfold retrieveTimeCoverage
  rw [if_neg hne, hsearch]
  dsimp only
  rw [if_neg hlen, hstart]
  dsimp only
  rw [hend]
  dsimp only
  rw [hdt]
  dsimp only
  rw [if_pos ⟨rfl, rfl⟩, hres]
  dsimp only
  rw [hext]
  dsimp only
  rw [hroll]
  rfl

/-- Stepping the placeholder loop of `_create_date_from_placeholders`
past one successfully parsed value. -/
theorem createDateLoop_step (pfx : String) (excl : Option String)
    (values : List (List Char)) (p : String) (ps : List String) (i : Nat)
    (args : Args) (vstr : List Char) (v : Nat)
    (hget : values.get? i = some vstr) (hparse : parseNat vstr = some v) :
    createDateLoop pfx excl values (p :: ps) i args =
      createDateLoop pfx excl values ps (i + 1)
        (if p = pfx ++ "year2" then
           setArg args "year" (if v < 65 then 2000 + v else 1900 + v)
         else if p = pfx ++ "millisecond" then
           setArg args (pfx ++ "microsecond") (v * 1000)
         else if (match excl with
                  | none => true
                  | some e => !(strStarts p e)) && strStarts p pfx then
           setArg args (strDrop p (strLen pfx)) v
         else args) := by
  rw [createDateLoop_cons, hget]
  dsimp only
  rw [hparse]

/-- The defining equation of `createDate`, exposing the initial
dictionary. -/
theorem createDate_eq (phs : List String) (values : List (List Char))
    (pfx : String) (excl : Option String) (dflt : Option Args) :
    createDate phs values pfx excl dflt =
      match createDateLoop pfx excl values phs 0 (dflt.getD []) with
      | .error e => .error e
      | .ok args =>
        if (pfx ++ "doy") ∈ phs then
          match lookupArg args "year", lookupArg args "doy" with
          | some y, some doy =>
            if 1 ≤ y ∧ y ≤ 9999 then
              let c := civilFromDays (daysFromCivil y 1 1 + doy - 1)
              .ok (eraseArg (setArg (setArg args "month" c.2.1) "day" c.2.2) "doy")
            else .error .badDate
          | _, _ => .error .keyError
        else .ok args := rfl

/-- Each placeholder of the calendar chains renders as a fixed-width
digit group for a timestamp with a four-digit year. -/
theorem chain_good (sn : String) (s e : DateTime) (hyr : 1000 ≤ s.year) :
    ∀ p ∈ (["year", "month", "day", "hour", "minute", "second", "millisecond"] :
        List String),
      p ≠ "name" ∧ ∃ w g, phWidth p = some w ∧ phFill sn s e p = some g ∧
        g.length = w ∧ g.all Char.isDigit = true := by
  intro p hp
  simp only [List.mem_cons, List.not_mem_nil, or_false] at hp
  rcases hp with rfl | rfl | rfl | rfl | rfl | rfl | rfl
  · exact ⟨by decide, 4, padChars 4 s.year, rfl,
      by rw [show phFill sn s e "year" = some (yearStr s.year) from rfl,
        yearStr_eq_padChars s.year hyr],
      padChars_length 4 s.year, padChars_digits 4 s.year⟩
  · exact ⟨by decide, 2, padChars 2 s.month, rfl, rfl,
      padChars_length 2 s.month, padChars_digits 2 s.month⟩
  · exact ⟨by decide, 2, padChars 2 s.day, rfl, rfl,
      padChars_length 2 s.day, padChars_digits 2 s.day⟩
  · exact ⟨by decide, 2, padChars 2 s.hour, rfl, rfl,
      padChars_length 2 s.hour, padChars_digits 2 s.hour⟩
  · exact ⟨by decide, 2, padChars 2 s.minute, rfl, rfl,
      padChars_length 2 s.minute, padChars_digits 2 s.minute⟩
  · exact ⟨by decide, 2, padChars 2 s.second, rfl, rfl,
      padChars_length 2 s.second, padChars_digits 2 s.second⟩
  · exact ⟨by decide, 3, padChars 3 (s.microsecond / 1000), rfl, rfl,
      padChars_length 3 (s.microsecond / 1000), padChars_digits 3 (s.microsecond / 1000)⟩

/-- Every chain is contained in the longest chain. -/
theorem chainPhs_subset (L : Nat) (p : String) (hp : p ∈ chainPhs L) :
    p ∈ (["year", "month", "day", "hour", "minute", "second", "millisecond"] :
      List String) := by
  have h : chainPhs L = ["year", "month", "day"] ∨
      chainPhs L = ["year", "month", "day", "hour"] ∨
      chainPhs L = ["year", "month", "day", "hour", "minute"] ∨
      chainPhs L = ["year", "month", "day", "hour", "minute", "second"] ∨
      chainPhs L = ["year", "month", "day", "hour", "minute", "second", "millisecond"] := by
    match L with
    | 0 => exact Or.inl rfl
    | 1 => exact Or.inr (Or.inl rfl)
    | 2 => exact Or.inr (Or.inr (Or.inl rfl))
    | 3 => exact Or.inr (Or.inr (Or.inr (Or.inl rfl)))
    | (n + 4) => exact Or.inr (Or.inr (Or.inr (Or.inr rfl)))
  rcases h with h | h | h | h | h <;> rw [h] at hp <;>
    simp only [List.mem_cons, List.not_mem_nil, or_false] at hp ⊢ <;> tauto

/-- C1, counterexample to the original claim, in two parts.  First, for
a template containing only year and month placeholders, the filename
generated from January 2017 is produced, but resolving its time coverage
does not return any interval: the datetime constructor fails for lack of
a day argument (TypeError).  Second, even for a day template, the
filename generated from the last representable day 9999-12-31 resolves
to no interval: the one-day continuity extension passes `datetime.max`
and raises OverflowError.  In both cases no interval containing the
generation time is returned. -/
theorem C1_counterexample :
    generateFilename "n" ⟨2017, 1, 15, 0, 0, 0, 0⟩ ⟨2017, 1, 15, 0, 0, 0, 0⟩
        yearMonthTemplate = some "2017/01".toList ∧
    retrieveTimeCoverage "x" true yearMonthTemplate "2017/01".toList =
      .error .badDate ∧
    generateFilename "n" ⟨9999, 12, 31, 0, 0, 0, 0⟩ ⟨9999, 12, 31, 0, 0, 0, 0⟩
        dayTemplate = some "9999/12/31.ext".toList ∧
    retrieveTimeCoverage "x" true dayTemplate "9999/12/31.ext".toList =
      .error .overflow :=
  ⟨rfl, rfl, rfl, rfl⟩

/-- C1 (corrected): round-trip naming holds for templates whose
placeholder list is a calendar chain (year, month, day, then optionally
hour, minute, second, millisecond in order), whose literal text avoids
the characters the source compiles specially into the pattern, and for
timestamps with four-digit years whose one-unit extension stays within
`datetime.max`: in continuous filename mode, resolving the coverage of
the filename generated from a time `T` yields the interval starting at
`T` truncated to the chain granularity and extending one resolution unit
(one second at the millisecond level, since the resolution lookup checks
a key that is never present), and this interval contains `T`.  For
templates whose placeholders do not determine a day, and at the
`datetime.max` boundary where the extension overflows, the resolution
raises instead of returning an interval. -/
theorem C1_round_trip (tn sn : String) (tmpl : Template) (L : Nat) (T : DateTime)
    (hL : L ≤ 4) (hphs : templatePlaceholders tmpl = chainPhs L)
    (_hplain : plainTemplate tmpl = true)
    (hv : ValidDT T) (hyr : 1000 ≤ T.year)
    (hov : toMicro (truncAt L T) + chainUnit L ≤ maxMicro) :
    ∃ out, generateFilename sn T T tmpl = some out ∧
      retrieveTimeCoverage tn true tmpl out =
        .ok (truncAt L T, addMicro (truncAt L T) (chainUnit L)) ∧
      dtLe (truncAt L T) T = true ∧
      dtLt T (addMicro (truncAt L T) (chainUnit L)) = true := by
  obtain ⟨a1, a2, a3, a4, a5, a6, a7, a8, a9, a10⟩ := hv
  have hdim : daysInMonth T.year T.month ≤ 31 := by
    unfold daysInMonth
    split_ifs <;> omega
  have hpy : parseNat (yearStr T.year) = some T.year := by
    rw [yearStr_eq_padChars T.year hyr]
    exact parseNat_padChars 4 T.year (by omega) (by omega)
  have hpmo : parseNat (padChars 2 T.month) = some T.month :=
    parseNat_padChars 2 T.month (by omega) (by omega)
  have hpd : parseNat (padChars 2 T.day) = some T.day :=
    parseNat_padChars 2 T.day (by omega) (by omega)
  have hph : parseNat (padChars 2 T.hour) = some T.hour :=
    parseNat_padChars 2 T.hour (by omega) (by omega)
  have hpmi : parseNat (padChars 2 T.minute) = some T.minute :=
    parseNat_padChars 2 T.minute (by omega) (by omega)
  have hps : parseNat (padChars 2 T.second) = some T.second :=
    parseNat_padChars 2 T.second (by omega) (by omega)
  have hpms : parseNat (padChars 3 (T.microsecond / 1000)) =
      some (T.microsecond / 1000) :=
    parseNat_padChars 3 (T.microsecond / 1000) (by omega) (by omega)
  have hgood : ∀ p ∈ templatePlaceholders tmpl, p ≠ "name" ∧
      ∃ w g, phWidth p = some w ∧ phFill sn T T p = some g ∧
        g.length = w ∧ g.all Char.isDigit = true := by
    rw [hphs]
    intro p hp
    exact chain_good sn T T hyr p (chainPhs_subset L p hp)
  obtain ⟨out, hgen, hmatch⟩ := fill_then_match tn sn T T tmpl hgood
  have hmatch0 : matchAt tn tmpl out =
      some ((templatePlaceholders tmpl).filterMap (phFill sn T T)) := by
    have h := hmatch []
    rwa [List.append_nil] at h
  have hsearch := matchSearch_of_matchAt tn tmpl out _ hmatch0
  interval_cases L
  · rw [show chainPhs 0 = ["year", "month", "day"] from rfl] at hphs
    have hfm : (templatePlaceholders tmpl).filterMap (phFill sn T T) =
        [yearStr T.year, padChars 2 T.month, padChars 2 T.day] := by
      rw [hphs]; rfl
    rw [hfm] at hsearch
    have h0 : createDateLoop "" (some "end_")
        [yearStr T.year, padChars 2 T.month, padChars 2 T.day]
        ["year", "month", "day"] 0 [] =
        .ok [("year", T.year), ("month", T.month), ("day", T.day)] := by
      rw [createDateLoop_step "" (some "end_")
            [yearStr T.year, padChars 2 T.month, padChars 2 T.day]
            "year" ["month", "day"] 0 [] (yearStr T.year) T.year rfl hpy,
          createDateLoop_step "" (some "end_")
            [yearStr T.year, padChars 2 T.month, padChars 2 T.day]
            "month" ["day"] 1 _ (padChars 2 T.month) T.month rfl hpmo,
          createDateLoop_step "" (some "end_")
            [yearStr T.year, padChars 2 T.month, padChars 2 T.day]
            "day" [] 2 _ (padChars 2 T.day) T.day rfl hpd,
          createDateLoop_nil]
      rfl
    have h1 : createDateLoop "end_" none
        [yearStr T.year, padChars 2 T.month, padChars 2 T.day]
        ["year", "month", "day"] 0
        [("year", T.year), ("month", T.month), ("day", T.day)] =
        .ok [("year", T.year), ("month", T.month), ("day", T.day)] := by
      rw [createDateLoop_step "end_" none
            [yearStr T.year, padChars 2 T.month, padChars 2 T.day]
            "year" ["month", "day"] 0
            [("year", T.year), ("month", T.month), ("day", T.day)]
            (yearStr T.year) T.year rfl hpy,
          createDateLoop_step "end_" none
            [yearStr T.year, padChars 2 T.month, padChars 2 T.day]
            "month" ["day"] 1 _ (padChars 2 T.month) T.month rfl hpmo,
          createDateLoop_step "end_" none
            [yearStr T.year, padChars 2 T.month, padChars 2 T.day]
            "day" [] 2 _ (padChars 2 T.day) T.day rfl hpd,
          createDateLoop_nil]
      rfl
    have hstart : createDate (templatePlaceholders tmpl)
        [yearStr T.year, padChars 2 T.month, padChars 2 T.day] "" (some "end_") none =
        .ok [("year", T.year), ("month", T.month), ("day", T.day)] := by
      rw [hphs, createDate_eq, Option.getD_none, h0]
      rfl
    have hend : createDate (templatePlaceholders tmpl)
        [yearStr T.year, padChars 2 T.month, padChars 2 T.day] "end_" none
        (some [("year", T.year), ("month", T.month), ("day", T.day)]) =
        .ok [("year", T.year), ("month", T.month), ("day", T.day)] := by
      rw [hphs, createDate_eq, Option.getD_some, h1]
      rfl
    have hvt : ValidDT ⟨T.year, T.month, T.day, 0, 0, 0, 0⟩ :=
      ⟨a1, a2, a3, a4, a5, a6, Nat.zero_le _, Nat.zero_le _, Nat.zero_le _, Nat.zero_le _⟩
    have hdt : datetimeFromArgs [("year", T.year), ("month", T.month), ("day", T.day)] =
        .ok (truncAt 0 T) := by
      show (if ValidDT ⟨T.year, T.month, T.day, 0, 0, 0, 0⟩ then
          Except.ok (⟨T.year, T.month, T.day, 0, 0, 0, 0⟩ : DateTime)
        else Except.error RErr.badDate) = Except.ok (truncAt 0 T)
      rw [if_pos hvt]
      rfl
    have hres : getTimeResolution [("year", T.year), ("month", T.month), ("day", T.day)] =
        some 86400000000 := rfl
    have hroll : dtLt (addMicro (truncAt 0 T) 86400000000) (truncAt 0 T) = false := by
      simp only [dtLt, toMicro_addMicro, decide_eq_false_iff_not]
      omega
    refine ⟨out, hgen, ?_, ?_, ?_⟩
    · exact retrieve_pipeline tn tmpl out
        [yearStr T.year, padChars 2 T.month, padChars 2 T.day]
        [("year", T.year), ("month", T.month), ("day", T.day)]
        (truncAt 0 T) 86400000000
        (by rw [hphs]; decide) hsearch (by simp) hstart hend hdt hres hov hroll
    · simp only [dtLe, decide_eq_true_eq]
      show toMicro ⟨T.year, T.month, T.day, 0, 0, 0, 0⟩ ≤ toMicro T
      simp only [toMicro]
      omega
    · simp only [dtLt, decide_eq_true_eq, toMicro_addMicro]
      show toMicro T < toMicro (⟨T.year, T.month, T.day, 0, 0, 0, 0⟩ : DateTime) + 86400000000
      simp only [toMicro]
      omega
  · rw [show chainPhs 1 = ["year", "month", "day", "hour"] from rfl] at hphs
    have hfm : (templatePlaceholders tmpl).filterMap (phFill sn T T) =
        [yearStr T.year, padChars 2 T.month, padChars 2 T.day, padChars 2 T.hour] := by
      rw [hphs]; rfl
    rw [hfm] at hsearch
    have h0 : createDateLoop "" (some "end_")
        [yearStr T.year, padChars 2 T.month, padChars 2 T.day, padChars 2 T.hour]
        ["year", "month", "day", "hour"] 0 [] =
        .ok [("year", T.year), ("month", T.month), ("day", T.day), ("hour", T.hour)] := by
      rw [createDateLoop_step "" (some "end_")
            [yearStr T.year, padChars 2 T.month, padChars 2 T.day, padChars 2 T.hour]
            "year" ["month", "day", "hour"] 0 [] (yearStr T.year) T.year rfl hpy,
          createDateLoop_step "" (some "end_")
            [yearStr T.year, padChars 2 T.month, padChars 2 T.day, padChars 2 T.hour]
            "month" ["day", "hour"] 1 _ (padChars 2 T.month) T.month rfl hpmo,
          createDateLoop_step "" (some "end_")
            [yearStr T.year, padChars 2 T.month, padChars 2 T.day, padChars 2 T.hour]
            "day" ["hour"] 2 _ (padChars 2 T.day) T.day rfl hpd,
          createDateLoop_step "" (some "end_")
            [yearStr T.year, padChars 2 T.month, padChars 2 T.day, padChars 2 T.hour]
            "hour" [] 3 _ (padChars 2 T.hour) T.hour rfl hph,
          createDateLoop_nil]
      rfl
    have h1 : createDateLoop "end_" none
        [yearStr T.year, padChars 2 T.month, padChars 2 T.day, padChars 2 T.hour]
        ["year", "month", "day", "hour"] 0
        [("year", T.year), ("month", T.month), ("day", T.day), ("hour", T.hour)] =
        .ok [("year", T.year), ("month", T.month), ("day", T.day), ("hour", T.hour)] := by
      rw [createDateLoop_step "end_" none
            [yearStr T.year, padChars 2 T.month, padChars 2 T.day, padChars 2 T.hour]
            "year" ["month", "day", "hour"] 0
            [("year", T.year), ("month", T.month), ("day", T.day), ("hour", T.hour)]
            (yearStr T.year) T.year rfl hpy,
          createDateLoop_step "end_" none
            [yearStr T.year, padChars 2 T.month, padChars 2 T.day, padChars 2 T.hour]
            "month" ["day", "hour"] 1 _ (padChars 2 T.month) T.month rfl hpmo,
          createDateLoop_step "end_" none
            [yearStr T.year, padChars 2 T.month, padChars 2 T.day, padChars 2 T.hour]
            "day" ["hour"] 2 _ (padChars 2 T.day) T.day rfl hpd,
          createDateLoop_step "end_" none
            [yearStr T.year, padChars 2 T.month, padChars 2 T.day, padChars 2 T.hour]
            "hour" [] 3 _ (padChars 2 T.hour) T.hour rfl hph,
          createDateLoop_nil]
      rfl
    have hstart : createDate (templatePlaceholders tmpl)
        [yearStr T.year, padChars 2 T.month, padChars 2 T.day, padChars 2 T.hour]
        "" (some "end_") none =
        .ok [("year", T.year), ("month", T.month), ("day", T.day), ("hour", T.hour)] := by
      rw [hphs, createDate_eq, Option.getD_none, h0]
      rfl
    have hend : createDate (templatePlaceholders tmpl)
        [yearStr T.year, padChars 2 T.month, padChars 2 T.day, padChars 2 T.hour]
        "end_" none
        (some [("year", T.year), ("month", T.month), ("day", T.day), ("hour", T.hour)]) =
        .ok [("year", T.year), ("month", T.month), ("day", T.day), ("hour", T.hour)] := by
      rw [hphs, createDate_eq, Option.getD_some, h1]
      rfl
    have hvt : ValidDT ⟨T.year, T.month, T.day, T.hour, 0, 0, 0⟩ :=
      ⟨a1, a2, a3, a4, a5, a6, a7, Nat.zero_le _, Nat.zero_le _, Nat.zero_le _⟩
    have hdt : datetimeFromArgs
        [("year", T.year), ("month", T.month), ("day", T.day), ("hour", T.hour)] =
        .ok (truncAt 1 T) := by
      show (if ValidDT ⟨T.year, T.month, T.day, T.hour, 0, 0, 0⟩ then
          Except.ok (⟨T.year, T.month, T.day, T.hour, 0, 0, 0⟩ : DateTime)
        else Except.error RErr.badDate) = Except.ok (truncAt 1 T)
      rw [if_pos hvt]
      rfl
    have hres : getTimeResolution
        [("year", T.year), ("month", T.month), ("day", T.day), ("hour", T.hour)] =
        some 3600000000 := rfl
    have hroll : dtLt (addMicro (truncAt 1 T) 3600000000) (truncAt 1 T) = false := by
      simp only [dtLt, toMicro_addMicro, decide_eq_false_iff_not]
      omega
    refine ⟨out, hgen, ?_, ?_, ?_⟩
    · exact retrieve_pipeline tn tmpl out
        [yearStr T.year, padChars 2 T.month, padChars 2 T.day, padChars 2 T.hour]
        [("year", T.year), ("month", T.month), ("day", T.day), ("hour", T.hour)]
        (truncAt 1 T) 3600000000
        (by rw [hphs]; decide) hsearch (by simp) hstart hend hdt hres hov hroll
    · simp only [dtLe, decide_eq_true_eq]
      show toMicro ⟨T.year, T.month, T.day, T.hour, 0, 0, 0⟩ ≤ toMicro T
      simp only [toMicro]
      omega
    · simp only [dtLt, decide_eq_true_eq, toMicro_addMicro]
      show toMicro T <
        toMicro (⟨T.year, T.month, T.day, T.hour, 0, 0, 0⟩ : DateTime) + 3600000000
      simp only [toMicro]
      omega
  · rw [show chainPhs 2 = ["year", "month", "day", "hour", "minute"] from rfl] at hphs
    have hfm : (templatePlaceholders tmpl).filterMap (phFill sn T T) =
        [yearStr T.year, padChars 2 T.month, padChars 2 T.day, padChars 2 T.hour,
         padChars 2 T.minute] := by
      rw [hphs]; rfl
    rw [hfm] at hsearch
    have h0 : createDateLoop "" (some "end_")
        [yearStr T.year, padChars 2 T.month, padChars 2 T.day, padChars 2 T.hour,
         padChars 2 T.minute]
        ["year", "month", "day", "hour", "minute"] 0 [] =
        .ok [("year", T.year), ("month", T.month), ("day", T.day), ("hour", T.hour),
             ("minute", T.minute)] := by
      rw [createDateLoop_step "" (some "end_")
            [yearStr T.year, padChars 2 T.month, padChars 2 T.day, padChars 2 T.hour,
             padChars 2 T.minute]
            "year" ["month", "day", "hour", "minute"] 0 [] (yearStr T.year) T.year rfl hpy,
          createDateLoop_step "" (some "end_")
            [yearStr T.year, padChars 2 T.month, padChars 2 T.day, padChars 2 T.hour,
             padChars 2 T.minute]
            "month" ["day", "hour", "minute"] 1 _ (padChars 2 T.month) T.month rfl hpmo,
          createDateLoop_step "" (some "end_")
            [yearStr T.year, padChars 2 T.month, padChars 2 T.day, padChars 2 T.hour,
             padChars 2 T.minute]
            "day" ["hour", "minute"] 2 _ (padChars 2 T.day) T.day rfl hpd,
          createDateLoop_step "" (some "end_")
            [yearStr T.year, padChars 2 T.month, padChars 2 T.day, padChars 2 T.hour,
             padChars 2 T.minute]
            "hour" ["minute"] 3 _ (padChars 2 T.hour) T.hour rfl hph,
          createDateLoop_step "" (some "end_")
            [yearStr T.year, padChars 2 T.month, padChars 2 T.day, padChars 2 T.hour,
             padChars 2 T.minute]
            "minute" [] 4 _ (padChars 2 T.minute) T.minute rfl hpmi,
          createDateLoop_nil]
      rfl
    have h1 : createDateLoop "end_" none
        [yearStr T.year, padChars 2 T.month, padChars 2 T.day, padChars 2 T.hour,
         padChars 2 T.minute]
        ["year", "month", "day", "hour", "minute"] 0
        [("year", T.year), ("month", T.month), ("day", T.day), ("hour", T.hour),
         ("minute", T.minute)] =
        .ok [("year", T.year), ("month", T.month), ("day", T.day), ("hour", T.hour),
             ("minute", T.minute)] := by
      rw [createDateLoop_step "end_" none
            [yearStr T.year, padChars 2 T.month, padChars 2 T.day, padChars 2 T.hour,
             padChars 2 T.minute]
            "year" ["month", "day", "hour", "minute"] 0
            [("year", T.year), ("month", T.month), ("day", T.day), ("hour", T.hour),
             ("minute", T.minute)]
            (yearStr T.year) T.year rfl hpy,
          createDateLoop_step "end_" none
            [yearStr T.year, padChars 2 T.month, padChars 2 T.day, padChars 2 T.hour,
             padChars 2 T.minute]
            "month" ["day", "hour", "minute"] 1 _ (padChars 2 T.month) T.month rfl hpmo,
          createDateLoop_step "end_" none
            [yearStr T.year, padChars 2 T.month, padChars 2 T.day, padChars 2 T.hour,
             padChars 2 T.minute]
            "day" ["hour", "minute"] 2 _ (padChars 2 T.day) T.day rfl hpd,
          createDateLoop_step "end_" none
            [yearStr T.year, padChars 2 T.month, padChars 2 T.day, padChars 2 T.hour,
             padChars 2 T.minute]
            "hour" ["minute"] 3 _ (padChars 2 T.hour) T.hour rfl hph,
          createDateLoop_step "end_" none
            [yearStr T.year, padChars 2 T.month, padChars 2 T.day, padChars 2 T.hour,
             padChars 2 T.minute]
            "minute" [] 4 _ (padChars 2 T.minute) T.minute rfl hpmi,
          createDateLoop_nil]
      rfl
    have hstart : createDate (templatePlaceholders tmpl)
        [yearStr T.year, padChars 2 T.month, padChars 2 T.day, padChars 2 T.hour,
         padChars 2 T.minute] "" (some "end_") none =
        .ok [("year", T.year), ("month", T.month), ("day", T.day), ("hour", T.hour),
             ("minute", T.minute)] := by
      rw [hphs, createDate_eq, Option.getD_none, h0]
      rfl
    have hend : createDate (templatePlaceholders tmpl)
        [yearStr T.year, padChars 2 T.month, padChars 2 T.day, padChars 2 T.hour,
         padChars 2 T.minute] "end_" none
        (some [("year", T.year), ("month", T.month), ("day", T.day), ("hour", T.hour),
               ("minute", T.minute)]) =
        .ok [("year", T.year), ("month", T.month), ("day", T.day), ("hour", T.hour),
             ("minute", T.minute)] := by
      rw [hphs, createDate_eq, Option.getD_some, h1]
      rfl
    have hvt : ValidDT ⟨T.year, T.month, T.day, T.hour, T.minute, 0, 0⟩ :=
      ⟨a1, a2, a3, a4, a5, a6, a7, a8, Nat.zero_le _, Nat.zero_le _⟩
    have hdt : datetimeFromArgs
        [("year", T.year), ("month", T.month), ("day", T.day), ("hour", T.hour),
         ("minute", T.minute)] =
        .ok (truncAt 2 T) := by
      show (if ValidDT ⟨T.year, T.month, T.day, T.hour, T.minute, 0, 0⟩ then
          Except.ok (⟨T.year, T.month, T.day, T.hour, T.minute, 0, 0⟩ : DateTime)
        else Except.error RErr.badDate) = Except.ok (truncAt 2 T)
      rw [if_pos hvt]
      rfl
    have hres : getTimeResolution
        [("year", T.year), ("month", T.month), ("day", T.day), ("hour", T.hour),
         ("minute", T.minute)] =
        some 60000000 := rfl
    have hroll : dtLt (addMicro (truncAt 2 T) 60000000) (truncAt 2 T) = false := by
      simp only [dtLt, toMicro_addMicro, decide_eq_false_iff_not]
      omega
    refine ⟨out, hgen, ?_, ?_, ?_⟩
    · exact retrieve_pipeline tn tmpl out
        [yearStr T.year, padChars 2 T.month, padChars 2 T.day, padChars 2 T.hour,
         padChars 2 T.minute]
        [("year", T.year), ("month", T.month), ("day", T.day), ("hour", T.hour),
         ("minute", T.minute)]
        (truncAt 2 T) 60000000
        (by rw [hphs]; decide) hsearch (by simp) hstart hend hdt hres hov hroll
    · simp only [dtLe, decide_eq_true_eq]
      show toMicro ⟨T.year, T.month, T.day, T.hour, T.minute, 0, 0⟩ ≤ toMicro T
      simp only [toMicro]
      omega
    · simp only [dtLt, decide_eq_true_eq, toMicro_addMicro]
      show toMicro T <
        toMicro (⟨T.year, T.month, T.day, T.hour, T.minute, 0, 0⟩ : DateTime) + 60000000
      simp only [toMicro]
      omega
  · rw [show chainPhs 3 = ["year", "month", "day", "hour", "minute", "second"] from rfl]
      at hphs
    have hfm : (templatePlaceholders tmpl).filterMap (phFill sn T T) =
        [yearStr T.year, padChars 2 T.month, padChars 2 T.day, padChars 2 T.hour,
         padChars 2 T.minute, padChars 2 T.second] := by
      rw [hphs]; rfl
    rw [hfm] at hsearch
    have h0 : createDateLoop "" (some "end_")
        [yearStr T.year, padChars 2 T.month, padChars 2 T.day, padChars 2 T.hour,
         padChars 2 T.minute, padChars 2 T.second]
        ["year", "month", "day", "hour", "minute", "second"] 0 [] =
        .ok [("year", T.year), ("month", T.month), ("day", T.day), ("hour", T.hour),
             ("minute", T.minute), ("second", T.second)] := by
      rw [createDateLoop_step "" (some "end_")
            [yearStr T.year, padChars 2 T.month, padChars 2 T.day, padChars 2 T.hour,
             padChars 2 T.minute, padChars 2 T.second]
            "year" ["month", "day", "hour", "minute", "second"] 0 []
            (yearStr T.year) T.year rfl hpy,
          createDateLoop_step "" (some "end_")
            [yearStr T.year, padChars 2 T.month, padChars 2 T.day, padChars 2 T.hour,
             padChars 2 T.minute, padChars 2 T.second]
            "month" ["day", "hour", "minute", "second"] 1 _
            (padChars 2 T.month) T.month rfl hpmo,
          createDateLoop_step "" (some "end_")
            [yearStr T.year, padChars 2 T.month, padChars 2 T.day, padChars 2 T.hour,
             padChars 2 T.minute, padChars 2 T.second]
            "day" ["hour", "minute", "second"] 2 _ (padChars 2 T.day) T.day rfl hpd,
          createDateLoop_step "" (some "end_")
            [yearStr T.year, padChars 2 T.month, padChars 2 T.day, padChars 2 T.hour,
             padChars 2 T.minute, padChars 2 T.second]
            "hour" ["minute", "second"] 3 _ (padChars 2 T.hour) T.hour rfl hph,
          createDateLoop_step "" (some "end_")
            [yearStr T.year, padChars 2 T.month, padChars 2 T.day, padChars 2 T.hour,
             padChars 2 T.minute, padChars 2 T.second]
            "minute" ["second"] 4 _ (padChars 2 T.minute) T.minute rfl hpmi,
          createDateLoop_step "" (some "end_")
            [yearStr T.year, padChars 2 T.month, padChars 2 T.day, padChars 2 T.hour,
             padChars 2 T.minute, padChars 2 T.second]
            "second" [] 5 _ (padChars 2 T.second) T.second rfl hps,
          createDateLoop_nil]
      rfl
    have h1 : createDateLoop "end_" none
        [yearStr T.year, padChars 2 T.month, padChars 2 T.day, padChars 2 T.hour,
         padChars 2 T.minute, padChars 2 T.second]
        ["year", "month", "day", "hour", "minute", "second"] 0
        [("year", T.year), ("month", T.month), ("day", T.day), ("hour", T.hour),
         ("minute", T.minute), ("second", T.second)] =
        .ok [("year", T.year), ("month", T.month), ("day", T.day), ("hour", T.hour),
             ("minute", T.minute), ("second", T.second)] := by
      rw [createDateLoop_step "end_" none
            [yearStr T.year, padChars 2 T.month, padChars 2 T.day, padChars 2 T.hour,
             padChars 2 T.minute, padChars 2 T.second]
            "year" ["month", "day", "hour", "minute", "second"] 0
            [("year", T.year), ("month", T.month), ("day", T.day), ("hour", T.hour),
             ("minute", T.minute), ("second", T.second)]
            (yearStr T.year) T.year rfl hpy,
          createDateLoop_step "end_" none
            [yearStr T.year, padChars 2 T.month, padChars 2 T.day, padChars 2 T.hour,
             padChars 2 T.minute, padChars 2 T.second]
            "month" ["day", "hour", "minute", "second"] 1 _
            (padChars 2 T.month) T.month rfl hpmo,
          createDateLoop_step "end_" none
            [yearStr T.year, padChars 2 T.month, padChars 2 T.day, padChars 2 T.hour,
             padChars 2 T.minute, padChars 2 T.second]
            "day" ["hour", "minute", "second"] 2 _ (padChars 2 T.day) T.day rfl hpd,
          createDateLoop_step "end_" none
            [yearStr T.year, padChars 2 T.month, padChars 2 T.day, padChars 2 T.hour,
             padChars 2 T.minute, padChars 2 T.second]
            "hour" ["minute", "second"] 3 _ (padChars 2 T.hour) T.hour rfl hph,
          createDateLoop_step "end_" none
            [yearStr T.year, padChars 2 T.month, padChars 2 T.day, padChars 2 T.hour,
             padChars 2 T.minute, padChars 2 T.second]
            "minute" ["second"] 4 _ (padChars 2 T.minute) T.minute rfl hpmi,
          createDateLoop_step "end_" none
            [yearStr T.year, padChars 2 T.month, padChars 2 T.day, padChars 2 T.hour,
             padChars 2 T.minute, padChars 2 T.second]
            "second" [] 5 _ (padChars 2 T.second) T.second rfl hps,
          createDateLoop_nil]
      rfl
    have hstart : createDate (templatePlaceholders tmpl)
        [yearStr T.year, padChars 2 T.month, padChars 2 T.day, padChars 2 T.hour,
         padChars 2 T.minute, padChars 2 T.second] "" (some "end_") none =
        .ok [("year", T.year), ("month", T.month), ("day", T.day), ("hour", T.hour),
             ("minute", T.minute), ("second", T.second)] := by
      rw [hphs, createDate_eq, Option.getD_none, h0]
      rfl
    have hend : createDate (templatePlaceholders tmpl)
        [yearStr T.year, padChars 2 T.month, padChars 2 T.day, padChars 2 T.hour,
         padChars 2 T.minute, padChars 2 T.second] "end_" none
        (some [("year", T.year), ("month", T.month), ("day", T.day), ("hour", T.hour),
               ("minute", T.minute), ("second", T.second)]) =
        .ok [("year", T.year), ("month", T.month), ("day", T.day), ("hour", T.hour),
             ("minute", T.minute), ("second", T.second)] := by
      rw [hphs, createDate_eq, Option.getD_some, h1]
      rfl
    have hvt : ValidDT ⟨T.year, T.month, T.day, T.hour, T.minute, T.second, 0⟩ :=
      ⟨a1, a2, a3, a4, a5, a6, a7, a8, a9, Nat.zero_le _⟩
    have hdt : datetimeFromArgs
        [("year", T.year), ("month", T.month), ("day", T.day), ("hour", T.hour),
         ("minute", T.minute), ("second", T.second)] =
        .ok (truncAt 3 T) := by
      show (if ValidDT ⟨T.year, T.month, T.day, T.hour, T.minute, T.second, 0⟩ then
          Except.ok (⟨T.year, T.month, T.day, T.hour, T.minute, T.second, 0⟩ : DateTime)
        else Except.error RErr.badDate) = Except.ok (truncAt 3 T)
      rw [if_pos hvt]
      rfl
    have hres : getTimeResolution
        [("year", T.year), ("month", T.month), ("day", T.day), ("hour", T.hour),
         ("minute", T.minute), ("second", T.second)] =
        some 1000000 := rfl
    have hroll : dtLt (addMicro (truncAt 3 T) 1000000) (truncAt 3 T) = false := by
      simp only [dtLt, toMicro_addMicro, decide_eq_false_iff_not]
      omega
    refine ⟨out, hgen, ?_, ?_, ?_⟩
    · exact retrieve_pipeline tn tmpl out
        [yearStr T.year, padChars 2 T.month, padChars 2 T.day, padChars 2 T.hour,
         padChars 2 T.minute, padChars 2 T.second]
        [("year", T.year), ("month", T.month), ("day", T.day), ("hour", T.hour),
         ("minute", T.minute), ("second", T.second)]
        (truncAt 3 T) 1000000
        (by rw [hphs]; decide) hsearch (by simp) hstart hend hdt hres hov hroll
    · simp only [dtLe, decide_eq_true_eq]
      show toMicro ⟨T.year, T.month, T.day, T.hour, T.minute, T.second, 0⟩ ≤ toMicro T
      simp only [toMicro]
      omega
    · simp only [dtLt, decide_eq_true_eq, toMicro_addMicro]
      show toMicro T <
        toMicro (⟨T.year, T.month, T.day, T.hour, T.minute, T.second, 0⟩ : DateTime) +
          1000000
      simp only [toMicro]
      omega
  · rw [show chainPhs 4 =
        ["year", "month", "day", "hour", "minute", "second", "millisecond"] from rfl]
      at hphs
    have hfm : (templatePlaceholders tmpl).filterMap (phFill sn T T) =
        [yearStr T.year, padChars 2 T.month, padChars 2 T.day, padChars 2 T.hour,
         padChars 2 T.minute, padChars 2 T.second, padChars 3 (T.microsecond / 1000)] := by
      rw [hphs]; rfl
    rw [hfm] at hsearch
    have h0 : createDateLoop "" (some "end_")
        [yearStr T.year, padChars 2 T.month, padChars 2 T.day, padChars 2 T.hour,
         padChars 2 T.minute, padChars 2 T.second, padChars 3 (T.microsecond / 1000)]
        ["year", "month", "day", "hour", "minute", "second", "millisecond"] 0 [] =
        .ok [("year", T.year), ("month", T.month), ("day", T.day), ("hour", T.hour),
             ("minute", T.minute), ("second", T.second),
             ("microsecond", T.microsecond / 1000 * 1000)] := by
      rw [createDateLoop_step "" (some "end_")
            [yearStr T.year, padChars 2 T.month, padChars 2 T.day, padChars 2 T.hour,
             padChars 2 T.minute, padChars 2 T.second, padChars 3 (T.microsecond / 1000)]
            "year" ["month", "day", "hour", "minute", "second", "millisecond"] 0 []
            (yearStr T.year) T.year rfl hpy,
          createDateLoop_step "" (some "end_")
            [yearStr T.year, padChars 2 T.month, padChars 2 T.day, padChars 2 T.hour,
             padChars 2 T.minute, padChars 2 T.second, padChars 3 (T.microsecond / 1000)]
            "month" ["day", "hour", "minute", "second", "millisecond"] 1 _
            (padChars 2 T.month) T.month rfl hpmo,
          createDateLoop_step "" (some "end_")
            [yearStr T.year, padChars 2 T.month, padChars 2 T.day, padChars 2 T.hour,
             padChars 2 T.minute, padChars 2 T.second, padChars 3 (T.microsecond / 1000)]
            "day" ["hour", "minute", "second", "millisecond"] 2 _
            (padChars 2 T.day) T.day rfl hpd,
          createDateLoop_step "" (some "end_")
            [yearStr T.year, padChars 2 T.month, padChars 2 T.day, padChars 2 T.hour,
             padChars 2 T.minute, padChars 2 T.second, padChars 3 (T.microsecond / 1000)]
            "hour" ["minute", "second", "millisecond"] 3 _
            (padChars 2 T.hour) T.hour rfl hph,
          createDateLoop_step "" (some "end_")
            [yearStr T.year, padChars 2 T.month, padChars 2 T.day, padChars 2 T.hour,
             padChars 2 T.minute, padChars 2 T.second, padChars 3 (T.microsecond / 1000)]
            "minute" ["second", "millisecond"] 4 _
            (padChars 2 T.minute) T.minute rfl hpmi,
          createDateLoop_step "" (some "end_")
            [yearStr T.year, padChars 2 T.month, padChars 2 T.day, padChars 2 T.hour,
             padChars 2 T.minute, padChars 2 T.second, padChars 3 (T.microsecond / 1000)]
            "second" ["millisecond"] 5 _ (padChars 2 T.second) T.second rfl hps,
          createDateLoop_step "" (some "end_")
            [yearStr T.year, padChars 2 T.month, padChars 2 T.day, padChars 2 T.hour,
             padChars 2 T.minute, padChars 2 T.second, padChars 3 (T.microsecond / 1000)]
            "millisecond" [] 6 _ (padChars 3 (T.microsecond / 1000))
            (T.microsecond / 1000) rfl hpms,
          createDateLoop_nil]
      rfl
    have h1 : createDateLoop "end_" none
        [yearStr T.year, padChars 2 T.month, padChars 2 T.day, padChars 2 T.hour,
         padChars 2 T.minute, padChars 2 T.second, padChars 3 (T.microsecond / 1000)]
        ["year", "month", "day", "hour", "minute", "second", "millisecond"] 0
        [("year", T.year), ("month", T.month), ("day", T.day), ("hour", T.hour),
         ("minute", T.minute), ("second", T.second),
         ("microsecond", T.microsecond / 1000 * 1000)] =
        .ok [("year", T.year), ("month", T.month), ("day", T.day), ("hour", T.hour),
             ("minute", T.minute), ("second", T.second),
             ("microsecond", T.microsecond / 1000 * 1000)] := by
      rw [createDateLoop_step "end_" none
            [yearStr T.year, padChars 2 T.month, padChars 2 T.day, padChars 2 T.hour,
             padChars 2 T.minute, padChars 2 T.second, padChars 3 (T.microsecond / 1000)]
            "year" ["month", "day", "hour", "minute", "second", "millisecond"] 0
            [("year", T.year), ("month", T.month), ("day", T.day), ("hour", T.hour),
             ("minute", T.minute), ("second", T.second),
             ("microsecond", T.microsecond / 1000 * 1000)]
            (yearStr T.year) T.year rfl hpy,
          createDateLoop_step "end_" none
            [yearStr T.year, padChars 2 T.month, padChars 2 T.day, padChars 2 T.hour,
             padChars 2 T.minute, padChars 2 T.second, padChars 3 (T.microsecond / 1000)]
            "month" ["day", "hour", "minute", "second", "millisecond"] 1 _
            (padChars 2 T.month) T.month rfl hpmo,
          createDateLoop_step "end_" none
            [yearStr T.year, padChars 2 T.month, padChars 2 T.day, padChars 2 T.hour,
             padChars 2 T.minute, padChars 2 T.second, padChars 3 (T.microsecond / 1000)]
            "day" ["hour", "minute", "second", "millisecond"] 2 _
            (padChars 2 T.day) T.day rfl hpd,
          createDateLoop_step "end_" none
            [yearStr T.year, padChars 2 T.month, padChars 2 T.day, padChars 2 T.hour,
             padChars 2 T.minute, padChars 2 T.second, padChars 3 (T.microsecond / 1000)]
            "hour" ["minute", "second", "millisecond"] 3 _
            (padChars 2 T.hour) T.hour rfl hph,
          createDateLoop_step "end_" none
            [yearStr T.year, padChars 2 T.month, padChars 2 T.day, padChars 2 T.hour,
             padChars 2 T.minute, padChars 2 T.second, padChars 3 (T.microsecond / 1000)]
            "minute" ["second", "millisecond"] 4 _
            (padChars 2 T.minute) T.minute rfl hpmi,
          createDateLoop_step "end_" none
            [yearStr T.year, padChars 2 T.month, padChars 2 T.day, padChars 2 T.hour,
             padChars 2 T.minute, padChars 2 T.second, padChars 3 (T.microsecond / 1000)]
            "second" ["millisecond"] 5 _ (padChars 2 T.second) T.second rfl hps,
          createDateLoop_step "end_" none
            [yearStr T.year, padChars 2 T.month, padChars 2 T.day, padChars 2 T.hour,
             padChars 2 T.minute, padChars 2 T.second, padChars 3 (T.microsecond / 1000)]
            "millisecond" [] 6 _ (padChars 3 (T.microsecond / 1000))
            (T.microsecond / 1000) rfl hpms,
          createDateLoop_nil]
      rfl
    have hstart : createDate (templatePlaceholders tmpl)
        [yearStr T.year, padChars 2 T.month, padChars 2 T.day, padChars 2 T.hour,
         padChars 2 T.minute, padChars 2 T.second, padChars 3 (T.microsecond / 1000)]
        "" (some "end_") none =
        .ok [("year", T.year), ("month", T.month), ("day", T.day), ("hour", T.hour),
             ("minute", T.minute), ("second", T.second),
             ("microsecond", T.microsecond / 1000 * 1000)] := by
      rw [hphs, createDate_eq, Option.getD_none, h0]
      rfl
    have hend : createDate (templatePlaceholders tmpl)
        [yearStr T.year, padChars 2 T.month, padChars 2 T.day, padChars 2 T.hour,
         padChars 2 T.minute, padChars 2 T.second, padChars 3 (T.microsecond / 1000)]
        "end_" none
        (some [("year", T.year), ("month", T.month), ("day", T.day), ("hour", T.hour),
               ("minute", T.minute), ("second", T.second),
               ("microsecond", T.microsecond / 1000 * 1000)]) =
        .ok [("year", T.year), ("month", T.month), ("day", T.day), ("hour", T.hour),
             ("minute", T.minute), ("second", T.second),
             ("microsecond", T.microsecond / 1000 * 1000)] := by
      rw [hphs, createDate_eq, Option.getD_some, h1]
      rfl
    have hms : T.microsecond / 1000 * 1000 ≤ 999999 := by omega
    have hvt : ValidDT ⟨T.year, T.month, T.day, T.hour, T.minute, T.second,
        T.microsecond / 1000 * 1000⟩ :=
      ⟨a1, a2, a3, a4, a5, a6, a7, a8, a9, hms⟩
    have hdt : datetimeFromArgs
        [("year", T.year), ("month", T.month), ("day", T.day), ("hour", T.hour),
         ("minute", T.minute), ("second", T.second),
         ("microsecond", T.microsecond / 1000 * 1000)] =
        .ok (truncAt 4 T) := by
      show (if ValidDT ⟨T.year, T.month, T.day, T.hour, T.minute, T.second,
          T.microsecond / 1000 * 1000⟩ then
          Except.ok (⟨T.year, T.month, T.day, T.hour, T.minute, T.second,
            T.microsecond / 1000 * 1000⟩ : DateTime)
        else Except.error RErr.badDate) = Except.ok (truncAt 4 T)
      rw [if_pos hvt]
      rfl
    have hres : getTimeResolution
        [("year", T.year), ("month", T.month), ("day", T.day), ("hour", T.hour),
         ("minute", T.minute), ("second", T.second),
         ("microsecond", T.microsecond / 1000 * 1000)] =
        some 1000000 := rfl
    have hroll : dtLt (addMicro (truncAt 4 T) 1000000) (truncAt 4 T) = false := by
      simp only [dtLt, toMicro_addMicro, decide_eq_false_iff_not]
      omega
    refine ⟨out, hgen, ?_, ?_, ?_⟩
    · exact retrieve_pipeline tn tmpl out
        [yearStr T.year, padChars 2 T.month, padChars 2 T.day, padChars 2 T.hour,
         padChars 2 T.minute, padChars 2 T.second, padChars 3 (T.microsecond / 1000)]
        [("year", T.year), ("month", T.month), ("day", T.day), ("hour", T.hour),
         ("minute", T.minute), ("second", T.second),
         ("microsecond", T.microsecond / 1000 * 1000)]
        (truncAt 4 T) 1000000
        (by rw [hphs]; decide) hsearch (by simp) hstart hend hdt hres hov hroll
    · simp only [dtLe, decide_eq_true_eq]
      show toMicro ⟨T.year, T.month, T.day, T.hour, T.minute, T.second,
        T.microsecond / 1000 * 1000⟩ ≤ toMicro T
      simp only [toMicro]
      omega
    · simp only [dtLt, decide_eq_true_eq, toMicro_addMicro]
      show toMicro T <
        toMicro (⟨T.year, T.month, T.day, T.hour, T.minute, T.second,
          T.microsecond / 1000 * 1000⟩ : DateTime) + 1000000
      simp only [toMicro]
      omega

/-- Witness for C1 at day granularity: a plain-literal day template and
the timestamp 2017-11-12T13:30. -/
theorem C1_round_trip_witness :
    (0 : Nat) ≤ 4 ∧
    templatePlaceholders plainDayTemplate = chainPhs 0 ∧
    plainTemplate plainDayTemplate = true ∧
    ValidDT ⟨2017, 11, 12, 13, 30, 0, 0⟩ ∧
    1000 ≤ (⟨2017, 11, 12, 13, 30, 0, 0⟩ : DateTime).year ∧
    toMicro (truncAt 0 ⟨2017, 11, 12, 13, 30, 0, 0⟩) + chainUnit 0 ≤ maxMicro ∧
    (∃ out, generateFilename "ds" ⟨2017, 11, 12, 13, 30, 0, 0⟩
        ⟨2017, 11, 12, 13, 30, 0, 0⟩ plainDayTemplate = some out ∧
      retrieveTimeCoverage "tb" true plainDayTemplate out =
        .ok (truncAt 0 ⟨2017, 11, 12, 13, 30, 0, 0⟩,
          addMicro (truncAt 0 ⟨2017, 11, 12, 13, 30, 0, 0⟩) (chainUnit 0)) ∧
      dtLe (truncAt 0 ⟨2017, 11, 12, 13, 30, 0, 0⟩) ⟨2017, 11, 12, 13, 30, 0, 0⟩ = true ∧
      dtLt ⟨2017, 11, 12, 13, 30, 0, 0⟩
        (addMicro (truncAt 0 ⟨2017, 11, 12, 13, 30, 0, 0⟩) (chainUnit 0)) = true) :=
  ⟨by decide, by decide, by decide, by decide, by decide, by decide,
   C1_round_trip "tb" "ds" plainDayTemplate 0 ⟨2017, 11, 12, 13, 30, 0, 0⟩
     (by decide) (by decide) (by decide) (by decide) (by decide) (by decide)⟩

end Typhon
